import Mathlib

set_option linter.unusedVariables false

/-!
Verification of the IEC 62915:2023 Retesting Planner (`streamlit_app.py`).

This file is a shallow embedding of the planner's pure decision core:
the plan accumulator (`add_test` / `add_note` / `add_sequence_flag`),
the baseline step, the Gate-1/Gate-2 power-delta computation, the
per-modification rule functions, the "Generate Retest Plan" pipeline,
the aggregation into a sorted results table, and the JSON snapshot
structure.  Python `float` inputs are modelled as `ℚ`; Python `set`s
are modelled as insertion-ordered duplicate-free lists (all observable
uses of the sets in the program are membership, extensional equality
and `sorted(...)` renderings, which agree with this model); the Python
`dict` used for the plan is modelled as an insertion-ordered
association list, matching CPython's ordered-dict semantics.
-/

namespace IEC62915

/-- A plan key: `(standard, code)` as in the Python `plan` dict. -/
abbrev Key := String × String

/-- The value stored in the plan for a real test row
(the dict built by `add_test`, fields `Standard`, `Test ID`, `Test name`,
`Reasons`, `Clauses`, `Notes`). The `Reasons`/`Clauses`/`Notes` sets are
modelled as insertion-ordered duplicate-free lists. -/
structure TestEntry where
  standard : String
  test_id : String
  test_name : String
  reasons : List String
  clauses : List String
  note_set : List String
deriving DecidableEq, Repr

/-- A plan value: a real test entry, or the `{"NotesOnly": [...]}` dict
that `add_note` stores under the sentinel key `("NOTES", "NOTES")`. -/
inductive PlanValue where
  | entry : TestEntry → PlanValue
  | notesOnly : List String → PlanValue
deriving DecidableEq, Repr

/-- The plan: an insertion-ordered association list keyed by `(standard, code)`,
modelling the Python dict `plan`. -/
abbrev PlanMap := List (Key × PlanValue)

/-- The sequence-flag set `seq_flags`: a Python `set` of `(flag, clause)` pairs,
modelled as an insertion-ordered duplicate-free list. -/
abbrev SeqSet := List (String × String)

/-- The sentinel key used by `add_note`. -/
def notesKey : Key := ("NOTES", "NOTES")

/-- `TESTS_61215` dictionary (module-level constant). -/
def TESTS_61215 : List (String × String) := [
  ("MQT 01", "Visual inspection"),
  ("MQT 03", "Insulation test (61215 context)"),
  ("MQT 04", "Measurement of temperature coefficients"),
  ("MQT 06.1", "Performance at STC"),
  ("MQT 07", "Performance at low irradiance"),
  ("MQT 09", "Hot-spot endurance"),
  ("MQT 10", "UV preconditioning"),
  ("MQT 11-50", "Thermal cycling (50 cycles)"),
  ("MQT 11-200", "Thermal cycling (200 cycles)"),
  ("MQT 12", "Humidity freeze"),
  ("MQT 13", "Damp heat"),
  ("MQT 14.1", "Robustness of terminations – retention of junction box on mounting surface"),
  ("MQT 14.2", "Robustness of terminations – cord anchorage"),
  ("MQT 15", "Wet leakage current test (61215 context)"),
  ("MQT 16", "Static mechanical load"),
  ("MQT 17", "Hail test"),
  ("MQT 18", "Bypass diode thermal test"),
  ("MQT 18.1", "Bypass diode thermal test (bifacial context)"),
  ("MQT 19", "Stabilization"),
  ("MQT 20", "Cyclic (dynamic) mechanical load"),
  ("MQT 21", "Potential-induced degradation (PID)"),
  ("MQT 22", "Bending test (flexible module)")]

/-- `TESTS_61730` dictionary (module-level constant). -/
def TESTS_61730 : List (String × String) := [
  ("MST 01", "Visual inspection (61730 context)"),
  ("MST 03", "Insulation test (61730 context)"),
  ("MST 04", "Insulation thickness test"),
  ("MST 05", "Durability of markings"),
  ("MST 06", "Sharp edges"),
  ("MST 07", "Bypass diode functionality"),
  ("MST 11", "Accessibility test"),
  ("MST 12", "Cut susceptibility test"),
  ("MST 13", "Continuity of equipotential bonding"),
  ("MST 14", "Impulse voltage test"),
  ("MST 16", "Wet leakage current test (61730 context)"),
  ("MST 17", "Ground continuity test"),
  ("MST 22", "Hot-spot endurance"),
  ("MST 24", "Ignitability"),
  ("MST 25", "Bypass diode thermal (61730 numbering in some editions)"),
  ("MST 26", "Reverse current overload"),
  ("MST 32", "Module breakage"),
  ("MST 33", "Screw connections test"),
  ("MST 34", "Static mechanical load"),
  ("MST 35", "Peel test (cemented joints)"),
  ("MST 36", "Lap shear strength (cemented joints)"),
  ("MST 37", "Materials creep"),
  ("MST 42", "Robustness of terminations (61730)"),
  ("MST 51-50", "Thermal cycling (50 cycles)"),
  ("MST 51-200", "Thermal cycling (200 cycles)"),
  ("MST 52", "Humidity freeze"),
  ("MST 53", "Damp heat"),
  ("MST 54", "UV test"),
  ("MST 57", "Insulation coordination evaluation (61730-1 reference)")]

/-- Python `dict.get(code, code)` over an association list. -/
def dictGetD (d : List (String × String)) (k dflt : String) : String :=
  match d with
  | [] => dflt
  | (k', v) :: rest => if k' = k then v else dictGetD rest k dflt

/-- Plan lookup (`key in plan` / `plan[key]`). -/
def lookupPlan : PlanMap → Key → Option PlanValue
  | [], _ => none
  | (k', v) :: rest, k => if k' = k then some v else lookupPlan rest k

/-- In-place mutation of `plan[key]` (dict keys are unique, so the first
occurrence is the only one; position & all other pairs are preserved). -/
def updatePlan : PlanMap → Key → (PlanValue → PlanValue) → PlanMap
  | [], _, _ => []
  | (k', v) :: rest, k, f =>
    if k' = k then (k', f v) :: rest else (k', v) :: updatePlan rest k f

/-- Python `set.add`: no-op when the element is present, else insert
(modelled at the end, preserving insertion order). -/
def insertSet (l : List String) (x : String) : List String :=
  if x ∈ l then l else l ++ [x]

/-- `add_test(plan, standard, code, reason, clause)`: dedup on
`(standard, code)`; accumulate reasons and clauses.  The Python guards
`if reason:` / `if clause:` test string truthiness, i.e. non-emptiness.
(When the stored value is the `NotesOnly` dict — impossible for the
standards the rules use, since the sentinel standard is `"NOTES"` —
Python would raise `KeyError`; the model leaves that value unchanged.) -/
def add_test (plan : PlanMap) (standard code reason clause : String) : PlanMap :=
  let key : Key := (standard, code)
  let name := dictGetD (if standard = "IEC 61215" then TESTS_61215 else TESTS_61730) code code
  match lookupPlan plan key with
  | none =>
      plan ++ [(key, .entry {
        standard := standard
        test_id := code
        test_name := name
        reasons := if reason = "" then [] else [reason]
        clauses := if clause = "" then [] else [clause]
        note_set := [] })]
  | some _ =>
      updatePlan plan key fun v =>
        match v with
        | .entry e => .entry { e with
            reasons := if reason = "" then e.reasons else insertSet e.reasons reason
            clauses := if clause = "" then e.clauses else insertSet e.clauses clause }
        | .notesOnly ns => .notesOnly ns

/-- `add_note(plan, note)`: `plan.setdefault(("NOTES","NOTES"), {"NotesOnly": []})`
followed by appending to the `NotesOnly` list.  (An `entry` value under the
sentinel key would be a Python `KeyError`; unreachable, left unchanged.) -/
def add_note (plan : PlanMap) (note : String) : PlanMap :=
  match lookupPlan plan notesKey with
  | none => plan ++ [(notesKey, .notesOnly [note])]
  | some _ =>
      updatePlan plan notesKey fun v =>
        match v with
        | .notesOnly ns => .notesOnly (ns ++ [note])
        | .entry e => .entry e

/-- `add_sequence_flag(seq_set, flag, clause)`: `set.add` of the pair. -/
def add_sequence_flag (seq_set : SeqSet) (flag clause : String) : SeqSet :=
  if (flag, clause) ∈ seq_set then seq_set else seq_set ++ [(flag, clause)]

/-- `baseline_checks(include_61215, include_61730, plan)` — clause 4.1 baseline. -/
def baseline_checks (include_61215 include_61730 : Bool) (plan : PlanMap) : PlanMap :=
  let plan :=
    if include_61215 then
      ["MQT 01", "MQT 03", "MQT 06.1", "MQT 15", "MQT 19"].foldl
        (fun pl t => add_test pl "IEC 61215" t "Baseline initial/final measurements per 4.1" "4.1") plan
    else plan
  if include_61730 then
    ["MST 01", "MST 03", "MST 16", "MST 17"].foldl
      (fun pl t => add_test pl "IEC 61730" t "Baseline checks per 4.1 (61730 program)" "4.1") plan
  else plan

/-! ### Gate-1 / Gate-2 step (lines 1054–1067 of the generate branch) -/

/-- The Gate sidebar inputs (`gate_input` dict; `st.number_input` with
`min_value=0.0`, so all values are ≥ 0 in the app). -/
structure GateInput where
  rated_Pmp_W : ℚ
  measured_Pmp_W : ℚ
  measured_Voc_V : ℚ
  measured_Isc_A : ℚ
deriving DecidableEq, Repr

/-- The `gate_results` dict. -/
structure GateResults where
  rated_Pmp_W : ℚ
  measured_Pmp_W : ℚ
  delta_Pmp_pct : Option ℚ
  measured_Voc_V : ℚ
  measured_Isc_A : ℚ
deriving DecidableEq, Repr

/-- `delta = (meas - rated) / rated * 100.0 if rated > 0 else None`. -/
def gate_delta (rated meas : ℚ) : Option ℚ :=
  if 0 < rated then some ((meas - rated) / rated * 100) else none

/-- Two-digit zero padding for the fractional part of `format_2f`. -/
def pad2 (n : ℕ) : String := if n < 10 then "0" ++ toString n else toString n

/-- Fixed-point rendering of a rational with two decimals (ties are
modelled half-up; CPython's `.2f` rounds ties half-to-even — no theorem
below inspects the rendered digits). -/
def render2 (q : ℚ) : String :=
  let c : ℤ := round (q * 100)
  let sign := if c < 0 then "-" else ""
  sign ++ toString (c.natAbs / 100) ++ "." ++ pad2 (c.natAbs % 100)

/-- Python `f"{x:.2f}"` applied to the optional delta.  Formatting `None`
raises `TypeError` in Python; the model returns `Except.error`. -/
def format_2f : Option ℚ → Except String String
  | none => .error "unsupported format string passed to NoneType.__format__"
  | some q => .ok (render2 q)

/-- The Gate-1/Gate-2 block of the generate branch: computes the
`gate_results` dict and appends the summary note.  The f-string
`f"Gate-1/2 recorded: ΔPmp%={delta:.2f}% ..."` is evaluated
unconditionally, so a `None` delta is a `TypeError` (`Except.error`). -/
def gate_step (gate_input : GateInput) (plan : PlanMap) :
    Except String (GateResults × PlanMap) :=
  let rated := gate_input.rated_Pmp_W
  let meas := gate_input.measured_Pmp_W
  let delta := gate_delta rated meas
  let gr : GateResults := {
    rated_Pmp_W := rated
    measured_Pmp_W := meas
    delta_Pmp_pct := delta
    measured_Voc_V := gate_input.measured_Voc_V
    measured_Isc_A := gate_input.measured_Isc_A }
  match format_2f delta with
  | .error e => .error e
  | .ok s => .ok (gr,
      add_note plan ("Gate-1/2 recorded: ΔPmp%=" ++ s ++ "% (engineer to assess per IEC 61215-1)."))

/-! ### Rule engine — per-modification rule functions (4.2 WBT / 4.3 MLI) -/

/-- Parameter dict passed to `rules_frontsheet` (all keys are set by the
frontsheet expander, which runs whenever the rule runs). -/
structure FrontsheetParams where
  material_type : String
  thickness_change_pct : ℚ
  surface_treatment_changed : Bool
  outside_surface_only : Bool
  ar_lambda_c_uv_change : String
  strengthening_change : Bool
  jb_on_frontsheet : Bool
  flexible_module : Bool
  cemented_joint : Bool
  model_designation_change : Bool
  glass_to_poly_or_vice_versa : Bool

/-- `rules_frontsheet` — TS 4.2.1 (WBT) / 4.3.1 (MLI). -/
def rules_frontsheet (p : FrontsheetParams) (tech : String)
    (include_61215 include_61730 : Bool) (seq_flags : SeqSet) (plan : PlanMap) :
    SeqSet × PlanMap :=
  let glass := decide (p.material_type = "glass")
  let non_glass := !glass
  let thickness_change := p.thickness_change_pct
  let surface_change := p.surface_treatment_changed
  let ar_cmp := p.ar_lambda_c_uv_change
  let strengthen_change := p.strengthening_change
  let model_designation_change := p.model_designation_change
  let glass_to_from_nonglass := p.glass_to_poly_or_vice_versa
  let plan := if glass_to_from_nonglass then
      add_note plan "Frontsheet change between glass and non-glass suggests full qualification (TS 4.2.1/4.3.1)."
    else plan
  let plan :=
    if include_61215 then
      let plan := if glass && (strengthen_change || decide (thickness_change < 0)) then
          add_test plan "IEC 61215" "MQT 09" "Frontsheet: glass strength/thickness change" "4.2.1/4.3.1" else plan
      let plan := if non_glass && (model_designation_change || decide (thickness_change < 0)) then
          add_test plan "IEC 61215" "MQT 09" "Frontsheet non-glass model/thickness change" "4.2.1/4.3.1" else plan
      let plan :=
        if !(glass && decide (ar_cmp = ">= previous")) then
          let plan := add_test plan "IEC 61215" "MQT 10" "UV preconditioning for frontsheet change" "4.2.1/4.3.1"
          let plan := add_test plan "IEC 61215" "MQT 20" "Cyclic (dynamic) mechanical load" "4.2.1/4.3.1"
          let plan := add_test plan "IEC 61215" "MQT 11-50" "Thermal cycling 50 cycles" "4.2.1/4.3.1"
          let plan := add_test plan "IEC 61215" "MQT 12" "Humidity freeze" "4.2.1/4.3.1"
          if p.jb_on_frontsheet then
            add_test plan "IEC 61215" "MQT 14.1" "Retention of J-box on frontsheet" "4.2.1/4.3.1" else plan
        else plan
      let plan := if non_glass || surface_change then
          add_test plan "IEC 61215" "MQT 13" "Damp heat for frontsheet change" "4.2.1/4.3.1" else plan
      let plan := if p.flexible_module && non_glass then
          add_test plan "IEC 61215" "MQT 22" "Bending test for flexible non-glass" "4.2.1/4.3.1" else plan
      let plan := if !(surface_change && p.outside_surface_only) then
          add_test plan "IEC 61215" "MQT 16" "Static mechanical load (frontsheet)" "4.2.1/4.3.1" else plan
      if !(surface_change && p.outside_surface_only) then
        add_test plan "IEC 61215" "MQT 17" "Hail test (frontsheet change)" "4.2.1/4.3.1" else plan
    else plan
  if include_61730 then
    let plan :=
      if !(glass && decide (ar_cmp = ">= previous")) then
        let plan := add_test plan "IEC 61730" "MST 54" "UV test for frontsheet change" "4.2.1/4.3.1"
        let plan := add_test plan "IEC 61730" "MST 51-50" "Thermal cycling 50 cycles" "4.2.1/4.3.1"
        let plan := add_test plan "IEC 61730" "MST 52" "Humidity freeze" "4.2.1/4.3.1"
        if p.jb_on_frontsheet then
          add_test plan "IEC 61730" "MST 42" "Robustness of terminations (frontsheet J-box)" "4.2.1/4.3.1" else plan
      else plan
    let plan := if non_glass || surface_change then
        add_test plan "IEC 61730" "MST 53" "Damp heat for frontsheet change" "4.2.1/4.3.1" else plan
    let plan := if !(surface_change && p.outside_surface_only) then
        add_test plan "IEC 61730" "MST 34" "Static mechanical load (frontsheet)" "4.2.1/4.3.1" else plan
    let sp : SeqSet × PlanMap :=
      if non_glass then
        let plan := add_test plan "IEC 61730" "MST 04" "Insulation thickness test (non-glass)" "4.2.1/4.3.1"
        let plan := add_test plan "IEC 61730" "MST 12" "Cut susceptibility (non-glass)" "4.2.1/4.3.1"
        let plan := if model_designation_change || decide (thickness_change < 0) then
            add_test plan "IEC 61730" "MST 14" "Impulse voltage test (non-glass changed/reduced)" "4.2.1/4.3.1" else plan
        let plan := add_test plan "IEC 61730" "MST 24" "Ignitability (non-glass)" "4.2.1/4.3.1"
        (add_sequence_flag seq_flags "SEQ_B" "4.2.1/4.3.1", plan)
      else (seq_flags, plan)
    let seq_flags := sp.1
    let plan := sp.2
    let plan := if glass && !(surface_change && p.outside_surface_only) then
        add_test plan "IEC 61730" "MST 32" "Module breakage (glass)" "4.2.1/4.3.1" else plan
    let plan := if p.cemented_joint then
        let plan := add_test plan "IEC 61730" "MST 35" "Peel test (cemented joint)" "4.2.1/4.3.1"
        add_test plan "IEC 61730" "MST 36" "Lap shear (cemented joint)" "4.2.1/4.3.1"
      else plan
    (seq_flags, plan)
  else (seq_flags, plan)

/-- Parameter dict passed to `rules_encapsulation`. -/
structure EncapParams where
  different_material : Bool
  additives_change_same_material : Bool
  thickness_change_pct : ℚ
  flexible_module : Bool
  frontsheet_polymeric : Bool
  front_or_back_polymeric : Bool
  volume_resistivity_drop_order : ℤ
  material_changed_composition : Bool
  cemented_joint : Bool
  pollution_degree_1 : Bool

/-- `rules_encapsulation` — TS 4.2.2 / 4.3.2. -/
def rules_encapsulation (p : EncapParams) (tech : String)
    (include_61215 include_61730 : Bool) (seq_flags : SeqSet) (plan : PlanMap) :
    SeqSet × PlanMap :=
  let diff_mat := p.different_material
  let add_change := p.additives_change_same_material
  let thickness_change := p.thickness_change_pct
  let flexible := p.flexible_module
  let rho_drop_order := p.volume_resistivity_drop_order
  let plan :=
    if include_61215 then
      let plan := add_test plan "IEC 61215" "MQT 09" "Encapsulation change" "4.2.2/4.3.2"
      let plan := add_test plan "IEC 61215" "MQT 10" "UV preconditioning" "4.2.2/4.3.2"
      let plan := if !add_change then
          add_test plan "IEC 61215" "MQT 20" "Cyclic (dynamic) mechanical load" "4.2.2/4.3.2" else plan
      let plan := add_test plan "IEC 61215" "MQT 11-50" "Thermal cycling 50" "4.2.2/4.3.2"
      let plan := add_test plan "IEC 61215" "MQT 12" "Humidity freeze" "4.2.2/4.3.2"
      let plan := if decide (thickness_change < -20) then
          add_test plan "IEC 61215" "MQT 11-200" "Thermal cycling 200 (thickness reduction >20%)" "4.2.2/4.3.2" else plan
      let plan := add_test plan "IEC 61215" "MQT 13" "Damp heat" "4.2.2/4.3.2"
      let plan := if p.frontsheet_polymeric && (diff_mat || !add_change) then
          add_test plan "IEC 61215" "MQT 17" "Hail test (polymeric frontsheet)" "4.2.2" else plan
      let plan := if decide (rho_drop_order ≠ 0) && decide (1 ≤ rho_drop_order) then
          add_test plan "IEC 61215" "MQT 21" "PID (volume resistivity decrease ≥1 order)" "4.2.2" else plan
      if flexible then add_test plan "IEC 61215" "MQT 22" "Bending test (flexible)" "4.2.2" else plan
    else plan
  if include_61730 then
    let plan := add_test plan "IEC 61730" "MST 22" "Hot-spot endurance" "4.2.2/4.3.2"
    let plan := add_test plan "IEC 61730" "MST 54" "UV" "4.2.2/4.3.2"
    let plan := add_test plan "IEC 61730" "MST 51-50" "Thermal cycling 50" "4.2.2/4.3.2"
    let plan := add_test plan "IEC 61730" "MST 52" "Humidity freeze" "4.2.2/4.3.2"
    let plan := add_test plan "IEC 61730" "MST 53" "Damp heat" "4.2.2/4.3.2"
    let plan := if decide (thickness_change < -20) then
        add_test plan "IEC 61730" "MST 51-200" "Thermal cycling 200 (thickness reduction >20%)" "4.2.2/4.3.2" else plan
    let plan := if p.front_or_back_polymeric then
        add_test plan "IEC 61730" "MST 12" "Cut susceptibility (polymeric outer)" "4.2.2/4.3.2" else plan
    let plan := if diff_mat || decide (thickness_change < 0) then
        add_test plan "IEC 61730" "MST 14" "Impulse voltage (reduced thickness/different material)" "4.2.2/4.3.2" else plan
    let plan := if p.material_changed_composition then
        add_test plan "IEC 61730" "MST 32" "Module breakage (material composition change)" "4.2.2" else plan
    let plan := if p.cemented_joint then
        let plan := add_test plan "IEC 61730" "MST 35" "Peel test (cemented joint)" "4.2.2"
        add_test plan "IEC 61730" "MST 36" "Lap shear (cemented joint)" "4.2.2"
      else plan
    let plan := add_test plan "IEC 61730" "MST 37" "Materials creep (as applicable)" "4.2.2"
    let seq_flags := if diff_mat || decide (thickness_change < 0) then
        add_sequence_flag seq_flags "SEQ_B" "4.2.2" else seq_flags
    let seq_flags := if p.pollution_degree_1 then
        add_sequence_flag seq_flags "SEQ_B1" "4.2.2" else seq_flags
    (seq_flags, plan)
  else (seq_flags, plan)

/-- Parameter dict passed to `rules_cell_technology_wbt`. -/
structure CellTechParams where
  tech_change : Bool
  ar_change : Bool
  crystallization_change : Bool
  manufacturer_change : Bool
  cell_thickness_reduction_pct : ℚ
  cell_size_change_pct : ℚ
  moved_to_half_cell : Bool

/-- `rules_cell_technology_wbt` — TS 4.2.3. -/
def rules_cell_technology_wbt (p : CellTechParams)
    (include_61215 include_61730 : Bool) (plan : PlanMap) : PlanMap :=
  let plan :=
    if include_61215 then
      let plan := add_test plan "IEC 61215" "MQT 20" "Dyn mech load (cell tech change)" "4.2.3"
      let plan := add_test plan "IEC 61215" "MQT 11-50" "Thermal cycling 50" "4.2.3"
      let plan := add_test plan "IEC 61215" "MQT 12" "Humidity freeze" "4.2.3"
      let plan := if p.tech_change || p.ar_change || p.crystallization_change || p.manufacturer_change then
          add_test plan "IEC 61215" "MQT 21" "PID (cell technology/AR/crystallization/manufacturer change)" "4.2.3" else plan
      let plan := add_test plan "IEC 61215" "MQT 09" "Hot-spot endurance (cell tech change)" "4.2.3"
      let plan := add_test plan "IEC 61215" "MQT 11-200" "Thermal cycling 200" "4.2.3"
      let plan := add_test plan "IEC 61215" "MQT 13" "Damp heat (cell tech change)" "4.2.3"
      let plan := if decide (p.cell_thickness_reduction_pct < 0) || p.crystallization_change then
          add_test plan "IEC 61215" "MQT 16" "Static mechanical load (thickness/crystallization)" "4.2.3" else plan
      if decide (p.cell_thickness_reduction_pct < 0) then
        add_test plan "IEC 61215" "MQT 17" "Hail (reduced cell thickness)" "4.2.3" else plan
    else plan
  if include_61730 then
    let plan := add_test plan "IEC 61730" "MST 22" "Hot-spot endurance (cell tech)" "4.2.3"
    let plan := add_test plan "IEC 61730" "MST 51-200" "Thermal cycling 200" "4.2.3"
    let plan := add_test plan "IEC 61730" "MST 53" "Damp heat (cell tech)" "4.2.3"
    let plan := if decide (p.cell_thickness_reduction_pct < 0) || p.crystallization_change then
        add_test plan "IEC 61730" "MST 34" "Static mechanical load (thickness/crystallization)" "4.2.3" else plan
    if !p.crystallization_change then
      add_test plan "IEC 61730" "MST 26" "Reverse current overload (cell tech)" "4.2.3" else plan
  else plan

/-- Parameter dict passed to `rules_interconnect_wbt`. -/
structure InterconnectParams where
  different_material : Bool
  solder_flux_change : Bool
  bonding_tech_change : Bool
  cross_section_change_pct : ℚ

/-- `rules_interconnect_wbt` — TS 4.2.4. -/
def rules_interconnect_wbt (p : InterconnectParams)
    (include_61215 include_61730 : Bool) (plan : PlanMap) : PlanMap :=
  let plan :=
    if include_61215 then
      let plan := add_test plan "IEC 61215" "MQT 09" "Hot-spot (bond/IC material/adhesive/flux change)" "4.2.4"
      let plan := add_test plan "IEC 61215" "MQT 11-200" "Thermal cycling 200" "4.2.4"
      if p.different_material || p.solder_flux_change then
        add_test plan "IEC 61215" "MQT 13" "Damp heat (material/flux change)" "4.2.4" else plan
    else plan
  if include_61730 then
    let plan := add_test plan "IEC 61730" "MST 22" "Hot-spot (bond/IC material/adhesive/flux change)" "4.2.4"
    let plan := add_test plan "IEC 61730" "MST 51-200" "Thermal cycling 200" "4.2.4"
    let plan := if p.different_material || p.solder_flux_change then
        add_test plan "IEC 61730" "MST 53" "Damp heat (material/flux change)" "4.2.4" else plan
    add_test plan "IEC 61730" "MST 26" "Reverse current overload" "4.2.4"
  else plan

/-- Parameter dict passed to `rules_backsheet`. -/
structure BacksheetParams where
  material_type : String
  thickness_change_pct : ℚ
  surface_treatment_changed : Bool
  outside_surface_only : Bool
  jb_on_backsheet : Bool
  flexible_module : Bool
  rigidity_depends_on_backsheet : Bool
  mounting_depends_on_backsheet : Bool
  cemented_joint : Bool
  model_designation_change : Bool
  pollution_degree_1 : Bool
  strengthening_change : Bool

/-- `rules_backsheet` — TS 4.2.5 / 4.3.9. -/
def rules_backsheet (p : BacksheetParams) (tech : String)
    (include_61215 include_61730 : Bool) (seq_flags : SeqSet) (plan : PlanMap) :
    SeqSet × PlanMap :=
  let glass := decide (p.material_type = "glass")
  let non_glass := !glass
  let thickness_change := p.thickness_change_pct
  let surface_change := p.surface_treatment_changed
  let outside_only := p.outside_surface_only
  let plan :=
    if include_61215 then
      let plan := add_test plan "IEC 61215" "MQT 10" "UV preconditioning" "4.2.5/4.3.9"
      let plan := add_test plan "IEC 61215" "MQT 20" "Cyclic (dynamic) mechanical load" "4.2.5/4.3.9"
      let plan := add_test plan "IEC 61215" "MQT 11-50" "Thermal cycling 50" "4.2.5/4.3.9"
      let plan := add_test plan "IEC 61215" "MQT 12" "Humidity freeze" "4.2.5/4.3.9"
      let plan := if p.jb_on_backsheet then
          add_test plan "IEC 61215" "MQT 14.1" "Retention of J-box on mounting surface" "4.2.5/4.3.9" else plan
      let plan := if non_glass || surface_change then
          add_test plan "IEC 61215" "MQT 13" "Damp heat (backsheet)" "4.2.5/4.3.9" else plan
      let plan := if p.flexible_module && non_glass then
          add_test plan "IEC 61215" "MQT 22" "Bending test (flexible)" "4.2.5/4.3.9" else plan
      let plan := if glass || p.mounting_depends_on_backsheet then
          add_test plan "IEC 61215" "MQT 16" "Static mechanical load (backsheet)" "4.2.5/4.3.9" else plan
      let plan := if p.rigidity_depends_on_backsheet then
          add_test plan "IEC 61215" "MQT 17" "Hail (rigidity depends on backsheet)" "4.2.5/4.3.9" else plan
      if (glass && (p.strengthening_change || decide (thickness_change < 0)))
          || (non_glass && (decide (thickness_change < 0) || p.model_designation_change)) then
        add_test plan "IEC 61215" "MQT 09" "Hot-spot (backsheet change)" "4.2.5/4.3.9" else plan
    else plan
  if include_61730 then
    let plan := add_test plan "IEC 61730" "MST 54" "UV" "4.2.5/4.3.9"
    let plan := add_test plan "IEC 61730" "MST 51-50" "Thermal cycling 50" "4.2.5/4.3.9"
    let plan := add_test plan "IEC 61730" "MST 52" "Humidity freeze" "4.2.5/4.3.9"
    let plan := add_test plan "IEC 61730" "MST 42" "Robustness of terminations (if applicable)" "4.2.5/4.3.9"
    let plan := if non_glass || surface_change then
        add_test plan "IEC 61730" "MST 53" "Damp heat" "4.2.5/4.3.9" else plan
    let plan := if glass || p.mounting_depends_on_backsheet then
        add_test plan "IEC 61730" "MST 34" "Static mechanical load (backsheet)" "4.2.5/4.3.9" else plan
    let sp : SeqSet × PlanMap :=
      if non_glass then
        let plan := add_test plan "IEC 61730" "MST 04" "Insulation thickness test (non-glass)" "4.2.5/4.3.9"
        let plan := add_test plan "IEC 61730" "MST 12" "Cut susceptibility (non-glass)" "4.2.5/4.3.9"
        let plan := if decide (thickness_change < 0) || p.model_designation_change then
            add_test plan "IEC 61730" "MST 14" "Impulse voltage test (non-glass reduced/changed)" "4.2.5/4.3.9" else plan
        let plan := add_test plan "IEC 61730" "MST 24" "Ignitability (non-glass)" "4.2.5/4.3.9"
        (add_sequence_flag seq_flags "SEQ_B" "4.2.5/4.3.9", plan)
      else (seq_flags, plan)
    let seq_flags := sp.1
    let plan := sp.2
    let plan := if glass && !outside_only then
        add_test plan "IEC 61730" "MST 32" "Module breakage (glass)" "4.2.5/4.3.9" else plan
    let plan := if p.cemented_joint then
        let plan := add_test plan "IEC 61730" "MST 35" "Peel test (cemented joint)" "4.2.5/4.3.9"
        add_test plan "IEC 61730" "MST 36" "Lap shear (cemented joint)" "4.2.5/4.3.9"
      else plan
    let seq_flags := if p.pollution_degree_1 then
        add_sequence_flag seq_flags "SEQ_B1" "4.2.5/4.3.9" else seq_flags
    (seq_flags, plan)
  else (seq_flags, plan)

/-- Parameter dict passed to `rules_electrical_termination`.  The rule body
additionally reads `electrical_attachment_only` and `attachment_changes_only`,
which the call site never supplies: `p.get(..., False)` makes them constantly
`False`, and they are inlined as `false` in the body below. -/
structure TerminationParams where
  potting_change_only : Bool
  only_cable_or_connector_change : Bool
  only_mech_attachment_or_num_jb : Bool
  jb_prequalified : Bool
  jb_not_sun_exposed : Bool
  electrical_attachment_change : Bool
  adhesive_change : Bool
  screw_connections_applicable : Bool
  cemented_joint : Bool
  relocation_or_position_only : Bool
  jb_weight_increase : Bool
  pollution_degree_1 : Bool

/-- `rules_electrical_termination` — TS 4.2.6 / 4.3.10. -/
def rules_electrical_termination (p : TerminationParams)
    (include_61215 include_61730 : Bool) (seq_flags : SeqSet) (plan : PlanMap) :
    SeqSet × PlanMap :=
  let plan :=
    if include_61215 then
      let plan := if !p.jb_not_sun_exposed && !p.potting_change_only then
          add_test plan "IEC 61215" "MQT 10" "UV preconditioning (termination)" "4.2.6/4.3.10" else plan
      let plan := if !p.potting_change_only && !p.only_cable_or_connector_change then
          add_test plan "IEC 61215" "MQT 20" "Dyn. mechanical load (termination)" "4.2.6/4.3.10" else plan
      let plan := add_test plan "IEC 61215" "MQT 11-50" "Thermal cycling 50" "4.2.6/4.3.10"
      let plan := add_test plan "IEC 61215" "MQT 12" "Humidity freeze" "4.2.6/4.3.10"
      let plan := if !p.jb_prequalified && !p.only_mech_attachment_or_num_jb && !p.relocation_or_position_only then
          add_test plan "IEC 61215" "MQT 14.2" "Cord anchorage" "4.2.6/4.3.10" else plan
      -- `electrical_attachment_only` is never supplied: `p.get` default `False`
      let plan := if !false then
          add_test plan "IEC 61215" "MQT 14.1" "Retention of J-box on mounting surface" "4.2.6/4.3.10" else plan
      let plan := if p.electrical_attachment_change then
          add_test plan "IEC 61215" "MQT 11-200" "Thermal cycling 200 (electrical attachment changed)" "4.2.6" else plan
      let plan := add_test plan "IEC 61215" "MQT 13" "Damp heat (termination)" "4.2.6/4.3.10"
      -- `attachment_changes_only` is never supplied: `p.get` default `False`
      if !false then
        add_test plan "IEC 61215" "MQT 18" "Bypass diode thermal (if applicable)" "4.2.6" else plan
    else plan
  if include_61730 then
    let plan := if !p.jb_not_sun_exposed && !p.potting_change_only then
        add_test plan "IEC 61730" "MST 54" "UV (termination)" "4.2.6/4.3.10" else plan
    let plan := add_test plan "IEC 61730" "MST 51-50" "Thermal cycling 50" "4.2.6/4.3.10"
    let plan := add_test plan "IEC 61730" "MST 52" "Humidity freeze" "4.2.6/4.3.10"
    let plan := add_test plan "IEC 61730" "MST 42" "Robustness of terminations" "4.2.6/4.3.10"
    let plan := if p.electrical_attachment_change then
        add_test plan "IEC 61730" "MST 51-200" "Thermal cycling 200 (electrical attachment changed)" "4.2.6" else plan
    let plan := add_test plan "IEC 61730" "MST 53" "Damp heat (termination)" "4.2.6/4.3.10"
    let plan := add_test plan "IEC 61730" "MST 11" "Accessibility" "4.2.6/4.3.10"
    let sp : SeqSet × PlanMap :=
      if p.adhesive_change then
        let plan := add_test plan "IEC 61730" "MST 24" "Ignitability (adhesive change)" "4.2.6"
        (add_sequence_flag seq_flags "SEQ_B" "4.2.6", plan)
      else (seq_flags, plan)
    let seq_flags := sp.1
    let plan := sp.2
    let plan := if !p.adhesive_change then
        add_test plan "IEC 61730" "MST 26" "Reverse current overload" "4.2.6" else plan
    let plan := if p.screw_connections_applicable then
        add_test plan "IEC 61730" "MST 33" "Screw connections test (if applicable)" "4.2.6" else plan
    let plan := if p.cemented_joint then
        let plan := add_test plan "IEC 61730" "MST 35" "Peel test (cemented joint for JB attach)" "4.2.6"
        let plan := add_test plan "IEC 61730" "MST 36" "Lap shear (cemented joint for JB attach)" "4.2.6"
        add_test plan "IEC 61730" "MST 57" "Insulation coordination evaluation (cemented joint)" "4.2.6"
      else plan
    let plan := if p.adhesive_change || p.jb_weight_increase then
        add_test plan "IEC 61730" "MST 37" "Materials creep (adhesive / increased termination weight)" "4.2.6" else plan
    let seq_flags := if p.pollution_degree_1 then
        add_sequence_flag seq_flags "SEQ_B1" "4.2.6" else seq_flags
    (seq_flags, plan)
  else (seq_flags, plan)

/-- Parameter dict passed to `rules_bypass_diode`. -/
structure DiodeParams where
  cells_per_diode_changed : Bool
  mounting_method_change : Bool

/-- `rules_bypass_diode` — TS 4.2.7 / 4.3.11. -/
def rules_bypass_diode (p : DiodeParams)
    (include_61215 include_61730 : Bool) (plan : PlanMap) : PlanMap :=
  let plan :=
    if include_61215 then
      let plan := if p.cells_per_diode_changed then
          add_test plan "IEC 61215" "MQT 09" "Hot-spot (cells per bypass diode changed)" "4.2.7/4.3.11" else plan
      let plan := if p.mounting_method_change then
          add_test plan "IEC 61215" "MQT 11-200" "Thermal cycling 200 (diode mounting change)" "4.2.7/4.3.11" else plan
      add_test plan "IEC 61215" "MQT 18" "Bypass diode thermal" "4.2.7/4.3.11"
    else plan
  if include_61730 then
    let plan := if p.cells_per_diode_changed then
        add_test plan "IEC 61730" "MST 22" "Hot-spot (cells per bypass diode changed)" "4.2.7/4.3.11" else plan
    let plan := if p.mounting_method_change then
        add_test plan "IEC 61730" "MST 51-200" "Thermal cycling 200 (diode mounting change)" "4.2.7/4.3.11" else plan
    let plan := add_test plan "IEC 61730" "MST 25" "Bypass diode thermal" "4.2.7/4.3.11"
    if p.mounting_method_change then
      add_test plan "IEC 61730" "MST 26" "Reverse current overload (mounting change)" "4.2.7/4.3.11" else plan
  else plan

/-- Parameter dict passed to `rules_electrical_circuitry_wbt`. -/
structure CircParams where
  more_cells_per_diode : Bool
  internal_conductors_behind_cells : Bool
  isc_increase_pct : ℚ
  reroute_output_leads : Bool
  polymeric_outer : Bool
  operating_v_or_i_increase_pct : ℚ

/-- `rules_electrical_circuitry_wbt` — TS 4.2.8. -/
def rules_electrical_circuitry_wbt (p : CircParams)
    (include_61215 include_61730 : Bool) (plan : PlanMap) : PlanMap :=
  let plan :=
    if include_61215 then
      let plan := if p.more_cells_per_diode then
          add_test plan "IEC 61215" "MQT 09" "Hot-spot (more cells per diode)" "4.2.8" else plan
      let plan := if p.internal_conductors_behind_cells then
          add_test plan "IEC 61215" "MQT 11-200" "Thermal cycling 200 (internal conductors behind cells)" "4.2.8" else plan
      if decide (10 < p.isc_increase_pct) then
        add_test plan "IEC 61215" "MQT 18" "Bypass diode thermal (Isc increased >10%)" "4.2.8" else plan
    else plan
  if include_61730 then
    let plan := if p.more_cells_per_diode then
        add_test plan "IEC 61730" "MST 22" "Hot-spot (more cells per diode)" "4.2.8" else plan
    let plan := if p.internal_conductors_behind_cells then
        add_test plan "IEC 61730" "MST 51-200" "Thermal cycling 200 (internal conductors behind cells)" "4.2.8" else plan
    let plan := if decide (10 < p.isc_increase_pct) then
        add_test plan "IEC 61730" "MST 25" "Bypass diode thermal (Isc increased >10%)" "4.2.8" else plan
    let plan := if p.reroute_output_leads && p.polymeric_outer then
        let plan := add_test plan "IEC 61730" "MST 12" "Cut susceptibility (rerouted leads / polymeric outer)" "4.2.8"
        add_test plan "IEC 61730" "MST 04" "Insulation thickness (rerouted leads / polymeric outer)" "4.2.8"
      else plan
    if decide (10 ≤ p.operating_v_or_i_increase_pct) then
      add_test plan "IEC 61730" "MST 26" "Reverse current overload (V/I increase ≥10%)" "4.2.8" else plan
  else plan

/-- Parameter dict passed to `rules_edge_seal`. -/
structure EdgeParams where
  diff_material : Bool
  thickness_or_width_change : Bool
  outer_enclosure : Bool

/-- `rules_edge_seal` — TS 4.2.9 / 4.3.12. -/
def rules_edge_seal (p : EdgeParams)
    (include_61215 include_61730 : Bool) (seq_flags : SeqSet) (plan : PlanMap) :
    SeqSet × PlanMap :=
  let plan :=
    if include_61215 then
      let plan :=
        if p.outer_enclosure then
          let plan := add_test plan "IEC 61215" "MQT 10" "UV (edge seal outer enclosure)" "4.2.9/4.3.12"
          let plan := add_test plan "IEC 61215" "MQT 11-50" "TC 50 (edge seal outer enclosure)" "4.2.9/4.3.12"
          add_test plan "IEC 61215" "MQT 12" "Humidity freeze" "4.2.9/4.3.12"
        else plan
      add_test plan "IEC 61215" "MQT 13" "Damp heat" "4.2.9/4.3.12"
    else plan
  if include_61730 then
    let plan :=
      if p.outer_enclosure then
        let plan := add_test plan "IEC 61730" "MST 54" "UV (edge seal outer enclosure)" "4.2.9/4.3.12"
        let plan := add_test plan "IEC 61730" "MST 51-50" "TC 50 (edge seal outer enclosure)" "4.2.9/4.3.12"
        add_test plan "IEC 61730" "MST 52" "Humidity freeze" "4.2.9/4.3.12"
      else plan
    let plan := add_test plan "IEC 61730" "MST 53" "Damp heat" "4.2.9/4.3.12"
    let plan := add_test plan "IEC 61730" "MST 14" "Impulse voltage" "4.2.9/4.3.12"
    if p.diff_material then
      let plan := add_test plan "IEC 61730" "MST 24" "Ignitability (if accessible for flame)" "4.2.9/4.3.12"
      let plan := add_test plan "IEC 61730" "MST 35" "Peel test (cemented joint, if applicable)" "4.2.9/4.3.12"
      let plan := add_test plan "IEC 61730" "MST 36" "Lap shear (cemented joint, if applicable)" "4.2.9/4.3.12"
      (add_sequence_flag seq_flags "SEQ_B" "4.2.9/4.3.12", plan)
    else (seq_flags, plan)
  else (seq_flags, plan)

/-- Parameter dict passed to `rules_frame_mounting`. -/
structure FrameParams where
  adhesive_change : Bool
  polymeric_frame_change : Bool
  framed_to_frameless : Bool
  equipotential_bonding_change : Bool
  screw_connections_applicable : Bool
  creep_not_prevented_anymore : Bool
  nonpolymeric_to_polymeric : Bool
  mounting_method_change : Bool

/-- `rules_frame_mounting` — TS 4.2.10 / 4.3.13. -/
def rules_frame_mounting (p : FrameParams)
    (include_61215 include_61730 : Bool) (plan : PlanMap) : PlanMap :=
  let plan :=
    if include_61215 then
      let plan :=
        if p.adhesive_change || p.polymeric_frame_change then
          let plan := add_test plan "IEC 61215" "MQT 10" "UV (frame/mounting, if adhesive exposed)" "4.2.10/4.3.13"
          let plan := add_test plan "IEC 61215" "MQT 20" "Dyn. mechanical load" "4.2.10/4.3.13"
          let plan := add_test plan "IEC 61215" "MQT 11-50" "TC 50" "4.2.10/4.3.13"
          add_test plan "IEC 61215" "MQT 12" "Humidity freeze" "4.2.10/4.3.13"
        else plan
      let plan := if p.adhesive_change || p.polymeric_frame_change || p.framed_to_frameless then
          add_test plan "IEC 61215" "MQT 13" "Damp heat" "4.2.10/4.3.13" else plan
      let plan := add_test plan "IEC 61215" "MQT 16" "Static mechanical load (frame/mount)" "4.2.10/4.3.13"
      if p.nonpolymeric_to_polymeric || p.framed_to_frameless then
        add_test plan "IEC 61215" "MQT 17" "Hail (frame change as specified)" "4.2.10" else plan
    else plan
  if include_61730 then
    let plan :=
      if p.adhesive_change || p.polymeric_frame_change then
        let plan := add_test plan "IEC 61730" "MST 54" "UV (frame/adhesive, if exposed)" "4.2.10/4.3.13"
        let plan := add_test plan "IEC 61730" "MST 51-50" "TC 50" "4.2.10/4.3.13"
        add_test plan "IEC 61730" "MST 52" "Humidity freeze" "4.2.10/4.3.13"
      else plan
    let plan := if p.adhesive_change || p.polymeric_frame_change || p.framed_to_frameless then
        add_test plan "IEC 61730" "MST 53" "Damp heat" "4.2.10/4.3.13" else plan
    let plan := add_test plan "IEC 61730" "MST 34" "Static mechanical load (frame/mount)" "4.2.10/4.3.13"
    let plan := if p.equipotential_bonding_change then
        add_test plan "IEC 61730" "MST 13" "Continuity of equipotential bonding" "4.2.10/4.3.13" else plan
    let plan := if p.polymeric_frame_change || p.adhesive_change then
        add_test plan "IEC 61730" "MST 24" "Ignitability (polymeric frame/adhesive)" "4.2.10/4.3.13" else plan
    let plan := add_test plan "IEC 61730" "MST 32" "Module breakage (frame)" "4.2.10/4.3.13"
    let plan := if p.screw_connections_applicable then
        add_test plan "IEC 61730" "MST 33" "Screw connections" "4.2.10/4.3.13" else plan
    if p.creep_not_prevented_anymore then
      add_test plan "IEC 61730" "MST 37" "Materials creep" "4.2.10/4.3.13" else plan
  else plan

/-- Parameter dict passed to `rules_module_size`. -/
structure SizeParams where
  increase_pct : ℚ
  non_tempered_or_nonglass : Bool
  flexible_module : Bool

/-- `rules_module_size` — TS 4.2.11 / 4.3.14. -/
def rules_module_size (p : SizeParams) (tech : String)
    (include_61215 include_61730 : Bool) (plan : PlanMap) : PlanMap :=
  let inc := p.increase_pct
  if decide (20 < inc) then
    let plan :=
      if include_61215 then
        let plan := add_test plan "IEC 61215" "MQT 11-200" "Thermal cycling 200 (size increase >20%)" "4.2.11/4.3.14"
        let plan := add_test plan "IEC 61215" "MQT 13" "Damp heat (size increase)" "4.2.11/4.3.14"
        let plan := add_test plan "IEC 61215" "MQT 16" "Static mechanical load (size increase)" "4.2.11/4.3.14"
        let plan := if p.non_tempered_or_nonglass then
            add_test plan "IEC 61215" "MQT 17" "Hail (non-tempered or non-glass)" "4.2.11/4.3.14" else plan
        if p.flexible_module then
          add_test plan "IEC 61215" "MQT 22" "Bending (flexible)" "4.2.11/4.3.14" else plan
      else plan
    if include_61730 then
      let plan := add_test plan "IEC 61730" "MST 51-200" "Thermal cycling 200 (size increase >20%)" "4.2.11/4.3.14"
      let plan := add_test plan "IEC 61730" "MST 53" "Damp heat (size increase)" "4.2.11/4.3.14"
      let plan := add_test plan "IEC 61730" "MST 34" "Static mechanical load (size increase)" "4.2.11/4.3.14"
      add_test plan "IEC 61730" "MST 32" "Module breakage (size increase)" "4.2.11/4.3.14"
    else plan
  else plan

/-- Parameter dict passed to `rules_output_power_identical_size`. -/
structure PwrParams where
  delta_power_pct : ℚ
  isc_increase_pct : ℚ

/-- `rules_output_power_identical_size` — TS 4.2.12 / 4.3.15. -/
def rules_output_power_identical_size (p : PwrParams)
    (include_61215 include_61730 : Bool) (plan : PlanMap) : PlanMap :=
  let plan :=
    if include_61215 then
      let plan := add_test plan "IEC 61215" "MQT 09" "Hot-spot (power change, identical size)" "4.2.12/4.3.15"
      if decide (10 < p.isc_increase_pct) then
        let plan := add_test plan "IEC 61215" "MQT 11-200" "Thermal cycling 200 (Isc increase >10%)" "4.2.12/4.3.15"
        add_test plan "IEC 61215" "MQT 18" "Bypass diode thermal (Isc increase >10%)" "4.2.12/4.3.15"
      else plan
    else plan
  if include_61730 then
    let plan := add_test plan "IEC 61730" "MST 22" "Hot-spot (power change)" "4.2.12/4.3.15"
    let plan :=
      if decide (10 < p.isc_increase_pct) then
        let plan := add_test plan "IEC 61730" "MST 51-200" "Thermal cycling 200 (Isc increase >10%)" "4.2.12/4.3.15"
        add_test plan "IEC 61730" "MST 25" "Bypass diode thermal (Isc increase >10%)" "4.2.12/4.3.15"
      else plan
    add_test plan "IEC 61730" "MST 26" "Reverse current overload" "4.2.12/4.3.15"
  else plan

/-- `rules_ocp_increase` — TS 4.2.13 / 4.3.16. -/
def rules_ocp_increase (ocp_increased : Bool) (include_61730 : Bool) (plan : PlanMap) : PlanMap :=
  if include_61730 && ocp_increased then
    let plan := add_test plan "IEC 61730" "MST 13" "Continuity of equipotential bonding (OCP increase)" "4.2.13/4.3.16"
    add_test plan "IEC 61730" "MST 26" "Reverse current overload (OCP increase)" "4.2.13/4.3.16"
  else plan

/-- Parameter dict passed to `rules_system_voltage_increase`. -/
structure VsysParams where
  increased_by_gt5 : Bool
  non_glass_outer : Bool

/-- `rules_system_voltage_increase` — TS 4.2.14 / 4.3.17. -/
def rules_system_voltage_increase (p : VsysParams)
    (include_61215 include_61730 : Bool) (seq_flags : SeqSet) (plan : PlanMap) :
    SeqSet × PlanMap :=
  if !p.increased_by_gt5 then (seq_flags, plan)
  else
    let plan :=
      if include_61215 then
        let plan := add_test plan "IEC 61215" "MQT 09" "Hot-spot (system voltage increased)" "4.2.14/4.3.17"
        let plan := add_test plan "IEC 61215" "MQT 10" "UV preconditioning" "4.2.14/4.3.17"
        let plan := add_test plan "IEC 61215" "MQT 20" "Dyn. mechanical load" "4.2.14/4.3.17"
        let plan := add_test plan "IEC 61215" "MQT 11-50" "TC 50" "4.2.14/4.3.17"
        let plan := add_test plan "IEC 61215" "MQT 12" "Humidity freeze" "4.2.14/4.3.17"
        let plan := add_test plan "IEC 61215" "MQT 11-200" "TC 200" "4.2.14/4.3.17"
        let plan := add_test plan "IEC 61215" "MQT 13" "Damp heat" "4.2.14/4.3.17"
        add_test plan "IEC 61215" "MQT 21" "PID" "4.2.14/4.3.17"
      else plan
    if include_61730 then
      let plan := add_note plan "Re-evaluate creepage/clearance per IEC 61730-1 (inspection/testing)."
      let plan := add_test plan "IEC 61730" "MST 22" "Hot-spot (system voltage increased)" "4.2.14/4.3.17"
      let plan := add_test plan "IEC 61730" "MST 54" "UV" "4.2.14/4.3.17"
      let plan := add_test plan "IEC 61730" "MST 51-50" "TC 50" "4.2.14/4.3.17"
      let plan := add_test plan "IEC 61730" "MST 52" "Humidity freeze" "4.2.14/4.3.17"
      let plan := add_test plan "IEC 61730" "MST 51-200" "TC 200" "4.2.14/4.3.17"
      let plan := add_test plan "IEC 61730" "MST 53" "Damp heat" "4.2.14/4.3.17"
      let plan := add_test plan "IEC 61730" "MST 04" "Insulation thickness" "4.2.14/4.3.17"
      let plan := add_test plan "IEC 61730" "MST 11" "Accessibility" "4.2.14/4.3.17"
      let plan := if p.non_glass_outer then
          add_test plan "IEC 61730" "MST 12" "Cut susceptibility (non-glass)" "4.2.14/4.3.17" else plan
      let plan := add_test plan "IEC 61730" "MST 13" "Continuity of equipotential bonding" "4.2.14/4.3.17"
      let plan := add_test plan "IEC 61730" "MST 14" "Impulse voltage" "4.2.14/4.3.17"
      (add_sequence_flag seq_flags "SEQ_B" "4.2.14/4.3.17", plan)
    else (seq_flags, plan)

/-- `rules_cell_fixing_internal_tape_wbt` — TS 4.2.15. -/
def rules_cell_fixing_internal_tape_wbt (diff_material_or_manufacturer : Bool)
    (include_61215 : Bool) (plan : PlanMap) : PlanMap :=
  if include_61215 && diff_material_or_manufacturer then
    add_test plan "IEC 61215" "MQT 12" "Humidity freeze (cell fixing/internal tape)" "4.2.15"
  else plan

/-- Parameter dict passed to `rules_label_material`. -/
structure LabelParams where
  diff_label_or_ink_or_adhesive : Bool
  side_has_label_exposed_to_uv : Bool
  coupon_ok : Bool

/-- `rules_label_material` — TS 4.2.16 / 4.3.18. -/
def rules_label_material (p : LabelParams)
    (include_61730 : Bool) (seq_flags : SeqSet) (plan : PlanMap) : SeqSet × PlanMap :=
  if include_61730 && p.diff_label_or_ink_or_adhesive then
    let plan := add_test plan "IEC 61730" "MST 05" "Durability of markings" "4.2.16/4.3.18"
    (add_sequence_flag seq_flags "SEQ_B" "4.2.16/4.3.18", plan)
  else (seq_flags, plan)

/-- Parameter dict passed to `rules_monofacial_to_bifacial`. -/
structure BifParams where
  include_tc50_block : Bool
  glass_backsheet : Bool

/-- `rules_monofacial_to_bifacial` — TS 4.2.17 / 4.3.19. -/
def rules_monofacial_to_bifacial (p : BifParams)
    (include_61215 include_61730 : Bool) (plan : PlanMap) : PlanMap :=
  let plan :=
    if include_61215 then
      let plan :=
        if p.include_tc50_block then
          let plan := add_test plan "IEC 61215" "MQT 10" "UV" "4.2.17/4.3.19"
          let plan := add_test plan "IEC 61215" "MQT 20" "Dyn. mech. load" "4.2.17/4.3.19"
          let plan := add_test plan "IEC 61215" "MQT 11-50" "TC 50" "4.2.17/4.3.19"
          add_test plan "IEC 61215" "MQT 12" "Humidity freeze" "4.2.17/4.3.19"
        else plan
      let plan := add_test plan "IEC 61215" "MQT 11-200" "TC 200" "4.2.17/4.3.19"
      let plan := add_test plan "IEC 61215" "MQT 04" "Temperature coefficients" "4.2.17/4.3.19"
      let plan := add_test plan "IEC 61215" "MQT 07" "Performance at low irradiance" "4.2.17/4.3.19"
      let plan := add_test plan "IEC 61215" "MQT 09" "Hot-spot" "4.2.17/4.3.19"
      let plan := add_test plan "IEC 61215" "MQT 18.1" "Bypass diode thermal (bifacial)" "4.2.17/4.3.19"
      if p.glass_backsheet then
        add_test plan "IEC 61215" "MQT 21" "PID (glass backsheet)" "4.2.17/4.3.19" else plan
    else plan
  if include_61730 then
    let plan := add_test plan "IEC 61730" "MST 22" "Hot-spot" "4.2.17/4.3.19"
    let plan := add_test plan "IEC 61730" "MST 54" "UV" "4.2.17/4.3.19"
    let plan := add_test plan "IEC 61730" "MST 51-50" "TC 50" "4.2.17/4.3.19"
    let plan := add_test plan "IEC 61730" "MST 52" "Humidity freeze" "4.2.17/4.3.19"
    let plan := add_test plan "IEC 61730" "MST 25" "Bypass diode thermal" "4.2.17/4.3.19"
    let plan := add_test plan "IEC 61730" "MST 51-200" "TC 200" "4.2.17/4.3.19"
    let plan := add_test plan "IEC 61730" "MST 26" "Reverse current overload" "4.2.17/4.3.19"
    add_test plan "IEC 61730" "MST 13" "Continuity of equipotential bonding" "4.2.17/4.3.19"
  else plan

/-- `rules_operating_temperature` — TS 4.2.18 / 4.3.20. -/
def rules_operating_temperature (qualifying_to_level : String) (plan : PlanMap) : PlanMap :=
  if qualifying_to_level = "level1" ∨ qualifying_to_level = "level2" then
    add_note plan "Re-run sequences at modified temperatures per IEC TS 63126 for high-temperature operation. (4.2.18/4.3.20)"
  else plan

/-- Parameter dict passed to the MLI thin-film rule
(`isc_increase_pct` is supplied by the call site but unread by the body). -/
structure MliParams where
  mli_front_contact_change : Bool
  mli_back_contact_change : Bool
  mli_edge_deletion_change : Bool
  mli_interconnect_change : Bool
  material_change : Bool
  cemented_joint : Bool
  isc_increase_pct : ℚ

/-- `rules_mli_front_back_contact_edge_deletion_interconnect` — TS 4.3.3/4.3.6/4.3.7/4.3.8. -/
def rules_mli_front_back_contact_edge_deletion_interconnect (p : MliParams)
    (include_61215 include_61730 : Bool) (plan : PlanMap) : PlanMap :=
  let plan :=
    if p.mli_front_contact_change then
      let plan :=
        if include_61215 then
          let plan := add_test plan "IEC 61215" "MQT 09" "Hot-spot (MLI front contact)" "4.3.3"
          let plan := add_test plan "IEC 61215" "MQT 10" "UV" "4.3.3"
          let plan := add_test plan "IEC 61215" "MQT 20" "Dyn ML" "4.3.3"
          let plan := add_test plan "IEC 61215" "MQT 11-50" "TC 50" "4.3.3"
          let plan := add_test plan "IEC 61215" "MQT 12" "Humidity freeze" "4.3.3"
          add_test plan "IEC 61215" "MQT 13" "Damp heat" "4.3.3"
        else plan
      if include_61730 then
        let plan := add_test plan "IEC 61730" "MST 22" "Hot-spot (MLI front contact)" "4.3.3"
        let plan := add_test plan "IEC 61730" "MST 54" "UV" "4.3.3"
        let plan := add_test plan "IEC 61730" "MST 51-50" "TC 50" "4.3.3"
        let plan := add_test plan "IEC 61730" "MST 52" "Humidity freeze" "4.3.3"
        let plan := add_test plan "IEC 61730" "MST 53" "Damp heat" "4.3.3"
        let plan := add_test plan "IEC 61730" "MST 14" "Impulse voltage" "4.3.3"
        add_test plan "IEC 61730" "MST 26" "Reverse current overload" "4.3.3"
      else plan
    else plan
  let plan :=
    if p.mli_back_contact_change then
      let plan :=
        if include_61215 then
          let plan := add_test plan "IEC 61215" "MQT 09" "Hot-spot (MLI back contact)" "4.3.6"
          let plan := add_test plan "IEC 61215" "MQT 20" "Dyn ML" "4.3.6"
          let plan := add_test plan "IEC 61215" "MQT 11-50" "TC 50" "4.3.6"
          let plan := add_test plan "IEC 61215" "MQT 12" "Humidity freeze" "4.3.6"
          add_test plan "IEC 61215" "MQT 13" "Damp heat" "4.3.6"
        else plan
      if include_61730 then
        let plan := add_test plan "IEC 61730" "MST 22" "Hot-spot (MLI back contact)" "4.3.6"
        let plan := add_test plan "IEC 61730" "MST 51-50" "TC 50" "4.3.6"
        let plan := add_test plan "IEC 61730" "MST 52" "Humidity freeze" "4.3.6"
        let plan := add_test plan "IEC 61730" "MST 53" "Damp heat" "4.3.6"
        let plan := add_test plan "IEC 61730" "MST 14" "Impulse voltage" "4.3.6"
        add_test plan "IEC 61730" "MST 26" "Reverse current overload" "4.3.6"
      else plan
    else plan
  let plan :=
    if p.mli_edge_deletion_change then
      let plan :=
        if include_61215 then
          let plan := add_test plan "IEC 61215" "MQT 20" "Dyn ML" "4.3.7"
          let plan := add_test plan "IEC 61215" "MQT 11-50" "TC 50" "4.3.7"
          let plan := add_test plan "IEC 61215" "MQT 12" "Humidity freeze" "4.3.7"
          add_test plan "IEC 61215" "MQT 13" "Damp heat" "4.3.7"
        else plan
      if include_61730 then
        let plan := add_test plan "IEC 61730" "MST 51-50" "TC 50" "4.3.7"
        let plan := add_test plan "IEC 61730" "MST 52" "Humidity freeze" "4.3.7"
        let plan := add_test plan "IEC 61730" "MST 53" "Damp heat" "4.3.7"
        let plan := add_test plan "IEC 61730" "MST 14" "Impulse voltage" "4.3.7"
        if p.cemented_joint then
          let plan := add_test plan "IEC 61730" "MST 35" "Peel test (cemented joint)" "4.3.7"
          add_test plan "IEC 61730" "MST 36" "Lap shear (cemented joint)" "4.3.7"
        else plan
      else plan
    else plan
  if p.mli_interconnect_change then
    let plan :=
      if include_61215 then
        let plan := add_test plan "IEC 61215" "MQT 11-200" "TC 200 (MLI interconnect)" "4.3.8"
        if p.material_change then
          add_test plan "IEC 61215" "MQT 13" "Damp heat (material change)" "4.3.8" else plan
      else plan
    if include_61730 then
      let plan := add_test plan "IEC 61730" "MST 51-200" "TC 200 (MLI interconnect)" "4.3.8"
      let plan := if p.material_change then
          add_test plan "IEC 61730" "MST 53" "Damp heat (material change)" "4.3.8" else plan
      add_test plan "IEC 61730" "MST 26" "Reverse current overload" "4.3.8"
    else plan
  else plan

/-! ### Python ordering and `sorted` (code-point lexicographic, as CPython) -/

/-- Lexicographic strict order on character lists by code point
(CPython's string `<`). -/
def clLt : List Char → List Char → Bool
  | [], [] => false
  | [], _ :: _ => true
  | _ :: _, [] => false
  | a :: as, b :: bs =>
    decide (a.toNat < b.toNat) || (decide (a.toNat = b.toNat) && clLt as bs)

/-- CPython string `<`. -/
def strLtB (a b : String) : Bool := clLt a.data b.data

/-- CPython string `<=` (total order, so `a <= b ↔ ¬ b < a`). -/
def strLeB (a b : String) : Bool := !(strLtB b a)

/-- CPython tuple `<` on string pairs. -/
def pairLtB (a b : String × String) : Bool :=
  strLtB a.1 b.1 || (decide (a.1 = b.1) && strLtB a.2 b.2)

/-- CPython tuple `<=` on string pairs. -/
def pairLeB (a b : String × String) : Bool := !(pairLtB b a)

theorem clLt_irrefl (a : List Char) : clLt a a = false := by
  induction a with
  | nil => rfl
  | cons x xs ih => simp [clLt, ih]

theorem clLt_trans (a b c : List Char) (hab : clLt a b = true) (hbc : clLt b c = true) :
    clLt a c = true := by
  induction a generalizing b c with
  | nil =>
    cases b with
    | nil => simp [clLt] at hab
    | cons y ys =>
      cases c with
      | nil => simp [clLt] at hbc
      | cons z zs => simp [clLt]
  | cons x xs ih =>
    cases b with
    | nil => simp [clLt] at hab
    | cons y ys =>
      cases c with
      | nil => simp [clLt] at hbc
      | cons z zs =>
        simp only [clLt, Bool.or_eq_true, Bool.and_eq_true, decide_eq_true_eq] at hab hbc ⊢
        rcases hab with h1 | ⟨h1, h1'⟩ <;> rcases hbc with h2 | ⟨h2, h2'⟩
        · exact Or.inl (h1.trans h2)
        · exact Or.inl (h2 ▸ h1)
        · exact Or.inl (h1 ▸ h2)
        · exact Or.inr ⟨h1.trans h2, ih ys zs h1' h2'⟩

theorem clLt_asymm (a b : List Char) (h : clLt a b = true) : clLt b a = false := by
  by_contra hba
  rw [Bool.not_eq_false] at hba
  have := clLt_trans a b a h hba
  simp [clLt_irrefl] at this

theorem clLt_conn (a b : List Char) (hab : clLt a b = false) (hba : clLt b a = false) :
    a = b := by
  induction a generalizing b with
  | nil =>
    cases b with
    | nil => rfl
    | cons y ys => simp [clLt] at hab
  | cons x xs ih =>
    cases b with
    | nil => simp [clLt] at hba
    | cons y ys =>
      simp only [clLt, Bool.or_eq_false_iff, Bool.and_eq_false_iff, decide_eq_false_iff_not,
        decide_eq_true_eq] at hab hba
      obtain ⟨hxy, hab'⟩ := hab
      obtain ⟨hyx, hba'⟩ := hba
      have hxyeq : x.toNat = y.toNat := by omega
      have hx : x = y := Char.eq_of_val_eq (by
        have : x.val.toNat = y.val.toNat := hxyeq
        exact UInt32.eq_of_val_eq (Fin.ext this))
      subst hx
      rcases hab' with h | h
      · exact absurd hxyeq h
      · rcases hba' with h' | h'
        · exact absurd rfl h'
        · exact congrArg (x :: ·) (ih ys h h')

theorem strLtB_asymm (a b : String) (h : strLtB a b = true) : strLtB b a = false :=
  clLt_asymm _ _ h

theorem strLtB_conn (a b : String) (hab : strLtB a b = false) (hba : strLtB b a = false) :
    a = b := by
  cases a with
  | mk da => cases b with
    | mk db => exact congrArg String.mk (clLt_conn da db hab hba)

theorem strLeB_total (a b : String) : (strLeB a b || strLeB b a) = true := by
  unfold strLeB
  by_cases h : strLtB b a = true
  · simp [h, strLtB_asymm b a h]
  · simp [Bool.not_eq_true] at h
    simp [h]

theorem strLeB_trans (a b c : String) (hab : strLeB a b = true) (hbc : strLeB b c = true) :
    strLeB a c = true := by
  unfold strLeB at *
  simp only [Bool.not_eq_true'] at hab hbc ⊢
  by_contra hca
  rw [Bool.not_eq_false] at hca
  by_cases hbc' : strLtB b c = true
  · have := clLt_trans _ _ _ hbc' hca
    simp [strLtB] at this hab
    rw [this] at hab
    cases hab
  · simp [Bool.not_eq_true] at hbc'
    have : b = c := strLtB_conn b c hbc' hbc
    subst this
    rw [hca] at hab
    cases hab

theorem pairLtB_asymm (a b : String × String) (h : pairLtB a b = true) : pairLtB b a = false := by
  simp only [pairLtB, Bool.or_eq_true, Bool.and_eq_true, decide_eq_true_eq] at h ⊢
  simp only [Bool.or_eq_false_iff, Bool.and_eq_false_iff, decide_eq_false_iff_not,
    decide_eq_true_eq]
  rcases h with h | ⟨he, h2⟩
  · constructor
    · exact strLtB_asymm _ _ h
    · left
      intro he
      rw [he] at h
      simp [strLtB, clLt_irrefl] at h
  · constructor
    · rw [he]
      simp [strLtB, clLt_irrefl]
    · right
      exact strLtB_asymm _ _ h2

theorem pairLtB_trans (a b c : String × String)
    (hab : pairLtB a b = true) (hbc : pairLtB b c = true) : pairLtB a c = true := by
  simp only [pairLtB, Bool.or_eq_true, Bool.and_eq_true, decide_eq_true_eq] at hab hbc ⊢
  rcases hab with h1 | ⟨h1, h1'⟩ <;> rcases hbc with h2 | ⟨h2, h2'⟩
  · exact Or.inl (clLt_trans _ _ _ h1 h2)
  · exact Or.inl (h2 ▸ h1)
  · exact Or.inl (h1 ▸ h2)
  · exact Or.inr ⟨h1.trans h2, clLt_trans _ _ _ h1' h2'⟩

theorem pairLtB_conn (a b : String × String)
    (hab : pairLtB a b = false) (hba : pairLtB b a = false) : a = b := by
  simp only [pairLtB, Bool.or_eq_false_iff, Bool.and_eq_false_iff, decide_eq_false_iff_not,
    decide_eq_true_eq] at hab hba
  obtain ⟨h1, h2⟩ := hab
  obtain ⟨h3, h4⟩ := hba
  have he : a.1 = b.1 := strLtB_conn _ _ h1 h3
  rcases h2 with h | h
  · exact absurd he h
  · rcases h4 with h' | h'
    · exact absurd he.symm h'
    · have : a.2 = b.2 := strLtB_conn _ _ h h'
      exact Prod.ext he this

theorem pairLeB_total (a b : String × String) : (pairLeB a b || pairLeB b a) = true := by
  unfold pairLeB
  by_cases h : pairLtB b a = true
  · simp [h, pairLtB_asymm b a h]
  · simp [Bool.not_eq_true] at h
    simp [h]

theorem pairLeB_trans (a b c : String × String)
    (hab : pairLeB a b = true) (hbc : pairLeB b c = true) : pairLeB a c = true := by
  unfold pairLeB at *
  simp only [Bool.not_eq_true'] at hab hbc ⊢
  by_contra hca
  rw [Bool.not_eq_false] at hca
  by_cases hbc' : pairLtB b c = true
  · rw [pairLtB_trans b c a hbc' hca] at hab
    cases hab
  · simp [Bool.not_eq_true] at hbc'
    have : b = c := pairLtB_conn b c hbc' hbc
    subst this
    rw [hca] at hab
    cases hab

/-- Stable insertion used by the model of Python `sorted` / pandas `sort_values`. -/
def insertLe {α : Type} (le : α → α → Bool) (x : α) : List α → List α
  | [] => [x]
  | y :: ys => if le x y then x :: y :: ys else y :: insertLe le x ys

/-- Model of Python `sorted(...)` (and of pandas `sort_values`): any correct
comparison sort; the theorems below characterise it by permutation plus
sortedness, which determines the result uniquely whenever keys are distinct
(as they are for plan rows, keyed by the unique `(standard, code)`). -/
def isort {α : Type} (le : α → α → Bool) : List α → List α
  | [] => []
  | x :: xs => insertLe le x (isort le xs)

theorem insertLe_perm {α : Type} (le : α → α → Bool) (x : α) (l : List α) :
    (insertLe le x l).Perm (x :: l) := by
  induction l with
  | nil => exact List.Perm.refl _
  | cons y ys ih =>
    simp only [insertLe]
    by_cases h : le x y = true
    · simp [h]
    · simp only [h]
      rw [if_neg (by simp [h])]
      exact (ih.cons y).trans (List.Perm.swap x y ys)

theorem isort_perm {α : Type} (le : α → α → Bool) (l : List α) :
    (isort le l).Perm l := by
  induction l with
  | nil => exact List.Perm.refl _
  | cons x xs ih => exact (insertLe_perm le x (isort le xs)).trans (ih.cons x)

theorem insertLe_pairwise {α : Type} (le : α → α → Bool)
    (htrans : ∀ a b c, le a b = true → le b c = true → le a c = true)
    (htot : ∀ a b, (le a b || le b a) = true)
    (x : α) (l : List α) (hl : l.Pairwise (fun a b => le a b = true)) :
    (insertLe le x l).Pairwise (fun a b => le a b = true) := by
  induction l with
  | nil => simp [insertLe]
  | cons y ys ih =>
    simp only [insertLe]
    rcases List.pairwise_cons.mp hl with ⟨hy, hys⟩
    by_cases h : le x y = true
    · rw [if_pos h]
      refine List.pairwise_cons.mpr ⟨?_, hl⟩
      intro z hz
      rcases List.mem_cons.mp hz with rfl | hz
      · exact h
      · exact htrans x y z h (hy z hz)
    · rw [if_neg (by simp [h])]
      refine List.pairwise_cons.mpr ⟨?_, ih hys⟩
      intro z hz
      have hz' : z ∈ x :: ys := (insertLe_perm le x ys).mem_iff.mp hz
      rcases List.mem_cons.mp hz' with rfl | hz'
      · have h2 := htot z y
        rw [Bool.eq_false_iff.mpr h] at h2
        simpa using h2
      · exact hy z hz'

theorem isort_pairwise {α : Type} (le : α → α → Bool)
    (htrans : ∀ a b c, le a b = true → le b c = true → le a c = true)
    (htot : ∀ a b, (le a b || le b a) = true)
    (l : List α) : (isort le l).Pairwise (fun a b => le a b = true) := by
  induction l with
  | nil => simp [isort]
  | cons x xs ih => exact insertLe_pairwise le htrans htot x (isort le xs) ih

/-! ### Aggregation into the results table (lines 1316–1331) -/

/-- One row of the flattened results table
(keys `Standard`, `Test ID`, `Test name`, `Clause ref`, `Reason(s)`). -/
structure Row where
  standard : String
  test_id : String
  test_name : String
  clause_ref : String
  reasons_joined : String
deriving DecidableEq, Repr

/-- `sorted(...)` on a list of strings. -/
def sortStr (l : List String) : List String := isort strLeB l

/-- `"; ".join(...)`. -/
def joinSemi (l : List String) : String := String.intercalate "; " l

/-- The row built from one plan entry: semicolon-joined sorted reasons and
clauses (the Python conditional `... if v["Reasons"] else ""`). -/
def mkRow (e : TestEntry) : Row :=
  { standard := e.standard
    test_id := e.test_id
    test_name := e.test_name
    clause_ref := if e.clauses = [] then "" else joinSemi (sortStr e.clauses)
    reasons_joined := if e.reasons = [] then "" else joinSemi (sortStr e.reasons) }

/-- The `for k, v in plan.items()` collection loop: builds the `tests` row
list in plan insertion order and captures the `notes` list from the
sentinel entry.  (A `NotesOnly` value under a non-sentinel key, or a test
entry under the sentinel key, would be a Python `KeyError`; both are
unreachable and skipped by the model.) -/
def collectStep (acc : List Row × List String) (kv : Key × PlanValue) :
    List Row × List String :=
  if kv.1 = notesKey then
    match kv.2 with
    | .notesOnly ns => (acc.1, ns)
    | .entry _ => acc
  else
    match kv.2 with
    | .entry e => (acc.1 ++ [mkRow e], acc.2)
    | .notesOnly _ => acc

/-- See `collectStep`. -/
def collect (plan : PlanMap) : List Row × List String :=
  plan.foldl collectStep ([], [])

/-- Row comparison used by `df.sort_values(["Standard", "Test ID"])`. -/
def rowLeB (a b : Row) : Bool := pairLeB (a.standard, a.test_id) (b.standard, b.test_id)

/-- The sorted results table `df` (lines 1316–1331). -/
def plan_rows (plan : PlanMap) : List Row := isort rowLeB (collect plan).1

/-- The `notes` list extracted by the collection loop. -/
def plan_notes (plan : PlanMap) : List String := (collect plan).2

/-- The test entries stored under non-sentinel keys, in insertion order. -/
def nonNoteEntries (plan : PlanMap) : List TestEntry :=
  plan.filterMap fun kv =>
    if kv.1 = notesKey then none
    else match kv.2 with
      | .entry e => some e
      | .notesOnly _ => none

/-- A Python-reachable plan: every non-sentinel key holds a test entry
(the value shapes `add_test` and `add_note` can actually produce). -/
def planValueIsEntry : PlanValue → Bool
  | .entry _ => true
  | .notesOnly _ => false

/-- Well-formedness of a plan as built by the app: non-sentinel keys map to
test entries. -/
def WFPlan (plan : PlanMap) : Prop :=
  ∀ kv ∈ plan, kv.1 ≠ notesKey → planValueIsEntry kv.2 = true

instance : DecidablePred WFPlan := fun plan =>
  inferInstanceAs (Decidable (∀ kv ∈ plan, kv.1 ≠ notesKey → planValueIsEntry kv.2 = true))

/-! ### Operation sequences (for the accumulator invariants) -/

/-- One call into the shared accumulator: `add_test` or `add_note`. -/
inductive PlanOp where
  | test (standard code reason clause : String)
  | note (s : String)

/-- Apply one accumulator call. -/
def applyOp (plan : PlanMap) : PlanOp → PlanMap
  | .test s c r cl => add_test plan s c r cl
  | .note s => add_note plan s

/-- Apply a sequence of accumulator calls, left to right. -/
def applyOps (ops : List PlanOp) (plan : PlanMap) : PlanMap := ops.foldl applyOp plan

/-- The standards the rule functions pass to `add_test`
(every call site uses a literal `"IEC 61215"` or `"IEC 61730"`). -/
def opValid : PlanOp → Prop
  | .test s _ _ _ => s = "IEC 61215" ∨ s = "IEC 61730"
  | .note _ => True

/-- The notes announced by a sequence of accumulator calls, in order. -/
def opsNotes (ops : List PlanOp) : List String :=
  ops.filterMap fun op =>
    match op with
    | .test _ _ _ _ => none
    | .note s => some s

/-- The keys of a plan, in insertion order. -/
def planKeys (plan : PlanMap) : List Key := plan.map Prod.fst

/-! ### The "Generate Retest Plan" branch (lines 1047–1331) -/

/-- `include_61215 = program in ("IEC 61215 only", "Combined IEC 61215 + IEC 61730")`. -/
def program_includes_61215 (program : String) : Bool :=
  program = "IEC 61215 only" || program = "Combined IEC 61215 + IEC 61730"

/-- `include_61730 = program in ("IEC 61730 only", "Combined IEC 61215 + IEC 61730")`. -/
def program_includes_61730 (program : String) : Bool :=
  program = "IEC 61730 only" || program = "Combined IEC 61215 + IEC 61730"

/-- The complete input of one "Generate Retest Plan" click: the sidebar
program setup, the gate block, the selected modifications, and the
per-category parameter panels (each panel runs whenever its rule runs, so
its values are always populated; the MLI panel's values fall back to the
widget defaults — `False`/`0.0` — via `params.get(..., default)` whenever
the panel was not rendered, which the caller of this model accounts for
by passing those defaults). -/
structure Inputs where
  tech : String
  program : String
  gate_block : Bool
  gate_input : GateInput
  mods : List String
  frontsheet : FrontsheetParams
  encap : EncapParams
  cell : CellTechParams
  ic : InterconnectParams
  backsheet : BacksheetParams
  term : TerminationParams
  diode : DiodeParams
  circ : CircParams
  edge : EdgeParams
  frame : FrameParams
  size : SizeParams
  pwr : PwrParams
  ocp_increased : Bool
  vsys : VsysParams
  tape_diff_material_or_manufacturer : Bool
  label_p : LabelParams
  bif_p : BifParams
  temp_qualifying_to_level : String
  mli : MliParams

/-- What one generate click produces (before rendering/export): the sorted
results table, the notes list, the sequence-flag set and the gate record. -/
structure Output where
  rows : List Row
  notes : List String
  seq_flags : SeqSet
  gate_results : Option GateResults
deriving DecidableEq

/-- One click of "Generate Retest Plan" (lines 1047–1331).  `carry` models
whatever plan / sequence-flag state an earlier invocation may have left
behind; the branch begins with `plan = {}` and `seq_flags = set()`, so
`carry` is discarded — the determinism theorem for the shared orchestration
makes that explicit.  `Except.error` is a Python exception escaping the
branch (only the Gate f-string can raise). -/
def generate_retest_plan (carry : PlanMap × SeqSet) (inp : Inputs) : Except String Output :=
  let include_61215 := program_includes_61215 inp.program
  let include_61730 := program_includes_61730 inp.program
  let plan : PlanMap := []
  let seq_flags : SeqSet := []
  let plan := baseline_checks include_61215 include_61730 plan
  let gateRes : Except String (Option GateResults × PlanMap) :=
    if inp.gate_block && include_61215 then
      match gate_step inp.gate_input plan with
      | .error e => .error e
      | .ok gp => .ok (some gp.1, gp.2)
    else .ok (none, plan)
  match gateRes with
  | .error e => .error e
  | .ok (gate_results, plan) =>
    let sp : SeqSet × PlanMap := (seq_flags, plan)
    let sp := if inp.mods.contains "Frontsheet" then
        rules_frontsheet inp.frontsheet inp.tech include_61215 include_61730 sp.1 sp.2 else sp
    let sp := if inp.mods.contains "Encapsulation" then
        rules_encapsulation inp.encap inp.tech include_61215 include_61730 sp.1 sp.2 else sp
    let sp := if inp.mods.contains "Cell technology (WBT)" && inp.tech.startsWith "WBT" then
        (sp.1, rules_cell_technology_wbt inp.cell include_61215 include_61730 sp.2) else sp
    let sp := if inp.mods.contains "Cell & string interconnect (WBT)" && inp.tech.startsWith "WBT" then
        (sp.1, rules_interconnect_wbt inp.ic include_61215 include_61730 sp.2) else sp
    let sp := if inp.mods.contains "Backsheet" then
        rules_backsheet inp.backsheet inp.tech include_61215 include_61730 sp.1 sp.2 else sp
    let sp := if inp.mods.contains "Electrical termination" then
        rules_electrical_termination inp.term include_61215 include_61730 sp.1 sp.2 else sp
    let sp := if inp.mods.contains "Bypass diode" then
        (sp.1, rules_bypass_diode inp.diode include_61215 include_61730 sp.2) else sp
    let sp := if inp.mods.contains "Electrical circuitry (WBT)" && inp.tech.startsWith "WBT" then
        (sp.1, rules_electrical_circuitry_wbt inp.circ include_61215 include_61730 sp.2) else sp
    let sp := if inp.mods.contains "Edge sealing" then
        rules_edge_seal inp.edge include_61215 include_61730 sp.1 sp.2 else sp
    let sp := if inp.mods.contains "Frame & mounting" then
        (sp.1, rules_frame_mounting inp.frame include_61215 include_61730 sp.2) else sp
    let sp := if inp.mods.contains "Module size increase" then
        (sp.1, rules_module_size inp.size inp.tech include_61215 include_61730 sp.2) else sp
    let sp := if inp.mods.contains "Higher/lower output power (identical design & size)" then
        (sp.1, rules_output_power_identical_size inp.pwr include_61215 include_61730 sp.2) else sp
    let sp := if inp.mods.contains "Increase OCP rating" then
        (sp.1, rules_ocp_increase inp.ocp_increased include_61730 sp.2) else sp
    let sp := if inp.mods.contains "Increase system voltage (>5%)" then
        rules_system_voltage_increase inp.vsys include_61215 include_61730 sp.1 sp.2 else sp
    let sp := if inp.mods.contains "Cell fixing / internal insulation tape (WBT)" && inp.tech.startsWith "WBT" then
        (sp.1, rules_cell_fixing_internal_tape_wbt inp.tape_diff_material_or_manufacturer include_61215 sp.2) else sp
    let sp := if inp.mods.contains "Label material (external nameplate)" then
        rules_label_material inp.label_p include_61730 sp.1 sp.2 else sp
    let sp := if inp.mods.contains "Change to bifacial" then
        (sp.1, rules_monofacial_to_bifacial inp.bif_p include_61215 include_61730 sp.2) else sp
    let sp := if inp.mods.contains "Operating temperature category increase (TS 63126)" then
        (sp.1, rules_operating_temperature inp.temp_qualifying_to_level sp.2) else sp
    let sp := if inp.tech.startsWith "MLI" then
        (sp.1, rules_mli_front_back_contact_edge_deletion_interconnect inp.mli include_61215 include_61730 sp.2) else sp
    .ok { rows := plan_rows sp.2
          notes := plan_notes sp.2
          seq_flags := sp.1
          gate_results := gate_results }

/-! ### The JSON snapshot (lines 1401–1412) -/

/-- A JSON value appearing at the top level of the snapshot object. -/
inductive SnapVal where
  | str : String → SnapVal
  | strList : List String → SnapVal
  | pairList : List (String × String) → SnapVal
  | rowList : List Row → SnapVal
  | gateVal : Option GateResults → SnapVal
  | inputsVal : Inputs → SnapVal

/-- The `snapshot` dict serialized to `IEC62915_Retest_Snapshot.json`
(`generated_on` is `datetime.now().isoformat()`, passed in as a string
since wall-clock time is outside the model). -/
def snapshot (generated_on tech program : String) (seq_flags : SeqSet)
    (gate_results : Option GateResults) (mods : List String) (inputs : Inputs)
    (tests : List Row) (notes : List String) : List (String × SnapVal) :=
  [("generated_on", .str generated_on),
   ("technology", .str tech),
   ("program", .str program),
   ("sequences", .pairList (isort pairLeB seq_flags)),
   ("gate", .gateVal gate_results),
   ("mods", .strList mods),
   ("inputs", .inputsVal inputs),
   ("plan", .rowList tests),
   ("notes", .strList notes)]

/-! ### Lemmas about the plan accumulator -/

theorem lookupPlan_none_iff (plan : PlanMap) (k : Key) :
    lookupPlan plan k = none ↔ k ∉ planKeys plan := by
  induction plan with
  | nil => simp [lookupPlan, planKeys]
  | cons kv rest ih =>
    obtain ⟨k', v⟩ := kv
    by_cases h : k' = k
    · subst h
      simp [lookupPlan, planKeys]
    · simp only [lookupPlan, if_neg h, planKeys, List.map_cons, List.mem_cons]
      simp only [planKeys] at ih
      rw [ih]
      constructor
      · intro hni hor
        rcases hor with hor | hor
        · exact h hor.symm
        · exact hni hor
      · intro hall
        exact fun hm => hall (Or.inr hm)

theorem lookupPlan_some_mem {plan : PlanMap} {k : Key} {v : PlanValue}
    (h : lookupPlan plan k = some v) : (k, v) ∈ plan := by
  induction plan with
  | nil => simp [lookupPlan] at h
  | cons kv rest ih =>
    obtain ⟨k', v'⟩ := kv
    by_cases hk : k' = k
    · subst hk
      simp [lookupPlan] at h
      simp [h]
    · simp [lookupPlan, hk] at h
      exact List.mem_cons_of_mem _ (ih h)

theorem lookupPlan_append_of_some {plan : PlanMap} {k : Key} {v : PlanValue}
    (q : PlanMap) (h : lookupPlan plan k = some v) :
    lookupPlan (plan ++ q) k = some v := by
  induction plan with
  | nil => simp [lookupPlan] at h
  | cons kv rest ih =>
    obtain ⟨k', v'⟩ := kv
    by_cases hk : k' = k
    · subst hk
      simp [lookupPlan] at h ⊢
      exact h
    · simp [lookupPlan, hk] at h ⊢
      exact ih h

theorem lookupPlan_append_of_none {plan : PlanMap} {k : Key}
    (q : PlanMap) (h : lookupPlan plan k = none) :
    lookupPlan (plan ++ q) k = lookupPlan q k := by
  induction plan with
  | nil => simp
  | cons kv rest ih =>
    obtain ⟨k', v'⟩ := kv
    by_cases hk : k' = k
    · subst hk
      simp [lookupPlan] at h
    · simp [lookupPlan, hk] at h ⊢
      exact ih h

theorem planKeys_updatePlan (plan : PlanMap) (k : Key) (f : PlanValue → PlanValue) :
    planKeys (updatePlan plan k f) = planKeys plan := by
  induction plan with
  | nil => rfl
  | cons kv rest ih =>
    obtain ⟨k', v⟩ := kv
    by_cases hk : k' = k
    · simp [updatePlan, hk, planKeys]
    · simp only [updatePlan, if_neg hk, planKeys, List.map_cons]
      simp only [planKeys] at ih
      rw [ih]

theorem lookupPlan_updatePlan_self {plan : PlanMap} {k : Key} {v : PlanValue}
    (f : PlanValue → PlanValue) (h : lookupPlan plan k = some v) :
    lookupPlan (updatePlan plan k f) k = some (f v) := by
  induction plan with
  | nil => simp [lookupPlan] at h
  | cons kv rest ih =>
    obtain ⟨k', v'⟩ := kv
    by_cases hk : k' = k
    · subst hk
      simp [lookupPlan] at h
      simp [updatePlan, lookupPlan, h]
    · simp [lookupPlan, hk] at h
      simp [updatePlan, hk, lookupPlan, ih h]

theorem lookupPlan_updatePlan_other {plan : PlanMap} {k k' : Key}
    (f : PlanValue → PlanValue) (h : k' ≠ k) :
    lookupPlan (updatePlan plan k f) k' = lookupPlan plan k' := by
  induction plan with
  | nil => rfl
  | cons kv rest ih =>
    obtain ⟨k'', v⟩ := kv
    by_cases hk : k'' = k
    · subst hk
      simp [updatePlan, lookupPlan, Ne.symm h]
    · by_cases hk' : k'' = k'
      · subst hk'
        simp [updatePlan, hk, lookupPlan]
      · simp [updatePlan, hk, lookupPlan, hk', ih]

theorem updatePlan_eq_self {plan : PlanMap} {k : Key} {v : PlanValue}
    (f : PlanValue → PlanValue) (h : lookupPlan plan k = some v) (hf : f v = v) :
    updatePlan plan k f = plan := by
  induction plan with
  | nil => rfl
  | cons kv rest ih =>
    obtain ⟨k', v'⟩ := kv
    by_cases hk : k' = k
    · subst hk
      simp [lookupPlan] at h
      subst h
      simp [updatePlan, hf]
    · simp [lookupPlan, hk] at h
      simp [updatePlan, hk, ih h]

theorem mem_updatePlan_weak {plan : PlanMap} {k : Key} {f : PlanValue → PlanValue}
    {kv : Key × PlanValue} (h : kv ∈ updatePlan plan k f) :
    kv ∈ plan ∨ ∃ v₀, (k, v₀) ∈ plan ∧ kv = (k, f v₀) := by
  induction plan with
  | nil => simp [updatePlan] at h
  | cons kv' rest ih =>
    obtain ⟨k', v'⟩ := kv'
    by_cases hk : k' = k
    · subst hk
      simp only [updatePlan, if_pos rfl] at h
      rcases List.mem_cons.mp h with rfl | h
      · exact Or.inr ⟨v', List.mem_cons_self _ _, rfl⟩
      · exact Or.inl (List.mem_cons_of_mem _ h)
    · simp only [updatePlan, if_neg hk] at h
      rcases List.mem_cons.mp h with rfl | h
      · exact Or.inl (List.mem_cons_self _ _)
      · rcases ih h with h' | ⟨v₀, hv₀, rfl⟩
        · exact Or.inl (List.mem_cons_of_mem _ h')
        · exact Or.inr ⟨v₀, List.mem_cons_of_mem _ hv₀, rfl⟩

theorem mem_updatePlan (hnd : (planKeys plan).Nodup) {k : Key} {f : PlanValue → PlanValue}
    {kv : Key × PlanValue} (h : kv ∈ updatePlan plan k f) :
    (kv ∈ plan ∧ kv.1 ≠ k) ∨ ∃ v₀, lookupPlan plan k = some v₀ ∧ kv = (k, f v₀) := by
  induction plan with
  | nil => simp [updatePlan] at h
  | cons kv' rest ih =>
    obtain ⟨k', v'⟩ := kv'
    have hnd' : (planKeys rest).Nodup := (List.nodup_cons.mp hnd).2
    have hknotin : k' ∉ planKeys rest := (List.nodup_cons.mp hnd).1
    by_cases hk : k' = k
    · subst hk
      simp only [updatePlan, if_pos rfl] at h
      rcases List.mem_cons.mp h with rfl | h
      · exact Or.inr ⟨v', by simp [lookupPlan], rfl⟩
      · refine Or.inl ⟨List.mem_cons_of_mem _ h, ?_⟩
        intro hkk
        exact hknotin (hkk ▸ List.mem_map_of_mem Prod.fst h)
    · simp only [updatePlan, if_neg hk] at h
      rcases List.mem_cons.mp h with rfl | h
      · exact Or.inl ⟨List.mem_cons_self _ _, by simpa using hk⟩
      · rcases ih hnd' h with ⟨h', hne⟩ | ⟨v₀, hv₀, rfl⟩
        · exact Or.inl ⟨List.mem_cons_of_mem _ h', hne⟩
        · exact Or.inr ⟨v₀, by simp [lookupPlan, hk, hv₀], rfl⟩

theorem mem_updatePlan_of_ne {plan : PlanMap} {k : Key} {f : PlanValue → PlanValue}
    {kv : Key × PlanValue} (h : kv ∈ plan) (hne : kv.1 ≠ k) :
    kv ∈ updatePlan plan k f := by
  induction plan with
  | nil => cases h
  | cons kv' rest ih =>
    obtain ⟨k', v'⟩ := kv'
    by_cases hk : k' = k
    · subst hk
      simp only [updatePlan, if_pos rfl]
      rcases List.mem_cons.mp h with rfl | h
      · exact absurd rfl hne
      · exact List.mem_cons_of_mem _ h
    · simp only [updatePlan, if_neg hk]
      rcases List.mem_cons.mp h with rfl | h
      · exact List.mem_cons_self _ _
      · exact List.mem_cons_of_mem _ (ih h)

theorem mem_updatePlan_self {plan : PlanMap} {k : Key} {v : PlanValue}
    (f : PlanValue → PlanValue) (h : lookupPlan plan k = some v) :
    (k, f v) ∈ updatePlan plan k f := by
  induction plan with
  | nil => simp [lookupPlan] at h
  | cons kv rest ih =>
    obtain ⟨k', v'⟩ := kv
    by_cases hk : k' = k
    · subst hk
      simp [lookupPlan] at h
      subst h
      simp [updatePlan]
    · simp [lookupPlan, hk] at h
      simp only [updatePlan, if_neg hk]
      exact List.mem_cons_of_mem _ (ih h)

/-- Unfolding `add_test` when the key is new. -/
theorem add_test_of_none {plan : PlanMap} {s c : String} (r cl : String)
    (h : lookupPlan plan (s, c) = none) :
    add_test plan s c r cl = plan ++ [((s, c), .entry {
      standard := s
      test_id := c
      test_name := dictGetD (if s = "IEC 61215" then TESTS_61215 else TESTS_61730) c c
      reasons := if r = "" then [] else [r]
      clauses := if cl = "" then [] else [cl]
      note_set := [] })] := by
  simp only [add_test, h]

/-- Unfolding `add_test` when the key already exists. -/
theorem add_test_of_some {plan : PlanMap} {s c : String} {v : PlanValue} (r cl : String)
    (h : lookupPlan plan (s, c) = some v) :
    add_test plan s c r cl = updatePlan plan (s, c) (fun v =>
      match v with
      | .entry e => .entry { e with
          reasons := if r = "" then e.reasons else insertSet e.reasons r
          clauses := if cl = "" then e.clauses else insertSet e.clauses cl }
      | .notesOnly ns => .notesOnly ns) := by
  simp only [add_test, h]

theorem nodup_planKeys_add_test {plan : PlanMap} (s c r cl : String)
    (h : (planKeys plan).Nodup) : (planKeys (add_test plan s c r cl)).Nodup := by
  cases hl : lookupPlan plan (s, c) with
  | none =>
    rw [add_test_of_none r cl hl]
    simp only [planKeys, List.map_append, List.map_cons, List.map_nil]
    rw [List.nodup_append]
    refine ⟨h, List.nodup_singleton _, ?_⟩
    intro a ha hb
    simp at hb
    subst hb
    exact (lookupPlan_none_iff plan (s, c)).mp hl ha
  | some v =>
    rw [add_test_of_some r cl hl, planKeys_updatePlan]
    exact h

theorem nodup_planKeys_add_note {plan : PlanMap} (n : String)
    (h : (planKeys plan).Nodup) : (planKeys (add_note plan n)).Nodup := by
  unfold add_note
  cases hl : lookupPlan plan notesKey with
  | none =>
    simp only [planKeys, List.map_append, List.map_cons, List.map_nil]
    rw [List.nodup_append]
    refine ⟨h, List.nodup_singleton _, ?_⟩
    intro a ha hb
    simp at hb
    subst hb
    exact (lookupPlan_none_iff plan notesKey).mp hl ha
  | some v =>
    rw [planKeys_updatePlan]
    exact h

theorem wf_add_test {plan : PlanMap} (s c r cl : String)
    (h : WFPlan plan) : WFPlan (add_test plan s c r cl) := by
  cases hl : lookupPlan plan (s, c) with
  | none =>
    rw [add_test_of_none r cl hl]
    intro kv hkv hne
    rcases List.mem_append.mp hkv with hkv | hkv
    · exact h kv hkv hne
    · simp only [List.mem_singleton] at hkv
      subst hkv
      rfl
  | some v =>
    rw [add_test_of_some r cl hl]
    intro kv hkv hne
    rcases mem_updatePlan_weak hkv with hkv | ⟨v₀, hv₀, rfl⟩
    · exact h kv hkv hne
    · have := h ((s, c), v₀) hv₀ hne
      cases v₀ with
      | entry e => rfl
      | notesOnly ns => simp [planValueIsEntry] at this

theorem wf_add_note {plan : PlanMap} (n : String)
    (h : WFPlan plan) : WFPlan (add_note plan n) := by
  unfold add_note
  cases hl : lookupPlan plan notesKey with
  | none =>
    intro kv hkv hne
    rcases List.mem_append.mp hkv with hkv | hkv
    · exact h kv hkv hne
    · simp only [List.mem_singleton] at hkv
      subst hkv
      exact absurd rfl hne
  | some v =>
    intro kv hkv hne
    rcases mem_updatePlan_weak hkv with hkv | ⟨v₀, hv₀, rfl⟩
    · exact h kv hkv hne
    · exact absurd rfl hne

/-! ### Accumulated reason/clause membership (`hasRC`) -/

theorem insertSet_mem_self (l : List String) (x : String) : x ∈ insertSet l x := by
  unfold insertSet
  by_cases h : x ∈ l
  · simp [h]
  · simp [h]

theorem insertSet_mem_mono {l : List String} {x : String} (y : String) (h : x ∈ l) :
    x ∈ insertSet l y := by
  unfold insertSet
  by_cases hy : y ∈ l
  · simpa [hy]
  · simp [hy, h]

theorem insertSet_eq_of_mem {l : List String} {x : String} (h : x ∈ l) :
    insertSet l x = l := by
  simp [insertSet, h]

/-- The key `k` carries a test entry whose reasons contain `r` and whose
clauses contain `c`. -/
def hasRC (plan : PlanMap) (k : Key) (r c : String) : Prop :=
  ∃ e, lookupPlan plan k = some (.entry e) ∧ r ∈ e.reasons ∧ c ∈ e.clauses

theorem hasRC_add_test {plan : PlanMap} {k : Key} {r c : String}
    (s co r' cl' : String) (h : hasRC plan k r c) :
    hasRC (add_test plan s co r' cl') k r c := by
  obtain ⟨e, hl, hr, hc⟩ := h
  cases hcase : lookupPlan plan (s, co) with
  | none =>
    rw [add_test_of_none r' cl' hcase]
    exact ⟨e, lookupPlan_append_of_some _ hl, hr, hc⟩
  | some v =>
    rw [add_test_of_some r' cl' hcase]
    by_cases hk : k = (s, co)
    · subst hk
      rw [hl] at hcase
      injection hcase with hv
      subst hv
      refine ⟨{ e with
          reasons := if r' = "" then e.reasons else insertSet e.reasons r'
          clauses := if cl' = "" then e.clauses else insertSet e.clauses cl' },
        lookupPlan_updatePlan_self _ hl, ?_, ?_⟩
      · by_cases hr' : r' = "" <;> simp [hr', hr, insertSet_mem_mono]
      · by_cases hc' : cl' = "" <;> simp [hc', hc, insertSet_mem_mono]
    · exact ⟨e, by rw [lookupPlan_updatePlan_other _ hk]; exact hl, hr, hc⟩

theorem hasRC_add_note {plan : PlanMap} {k : Key} {r c : String}
    (n : String) (h : hasRC plan k r c) : hasRC (add_note plan n) k r c := by
  obtain ⟨e, hl, hr, hc⟩ := h
  unfold add_note
  cases hcase : lookupPlan plan notesKey with
  | none =>
    exact ⟨e, lookupPlan_append_of_some _ hl, hr, hc⟩
  | some v =>
    by_cases hk : k = notesKey
    · subst hk
      rw [hl] at hcase
      injection hcase with hv
      subst hv
      exact ⟨e, lookupPlan_updatePlan_self _ hl, hr, hc⟩
    · exact ⟨e, by rw [lookupPlan_updatePlan_other _ hk]; exact hl, hr, hc⟩

theorem hasRC_create {plan : PlanMap} {s co r cl : String}
    (hwf : WFPlan plan) (hs : s ≠ "NOTES") (hr : r ≠ "") (hc : cl ≠ "") :
    hasRC (add_test plan s co r cl) (s, co) r cl := by
  cases hcase : lookupPlan plan (s, co) with
  | none =>
    rw [add_test_of_none r cl hcase]
    refine ⟨⟨s, co, dictGetD (if s = "IEC 61215" then TESTS_61215 else TESTS_61730) co co,
        (if r = "" then [] else [r]), (if cl = "" then [] else [cl]), []⟩, ?_, ?_, ?_⟩
    · rw [lookupPlan_append_of_none _ hcase]
      simp [lookupPlan]
    · simp [hr]
    · simp [hc]
  | some v =>
    have hmem := lookupPlan_some_mem hcase
    have hentry := hwf ((s, co), v) hmem (by simp [notesKey, hs])
    cases v with
    | notesOnly ns => simp [planValueIsEntry] at hentry
    | entry e =>
      rw [add_test_of_some r cl hcase]
      refine ⟨_, lookupPlan_updatePlan_self _ hcase, ?_, ?_⟩
      · simp [hr, insertSet_mem_self]
      · simp [hc, insertSet_mem_self]

theorem add_test_noop {plan : PlanMap} {s co r cl : String}
    (h : hasRC plan (s, co) r cl) (hr : r ≠ "") (hc : cl ≠ "") :
    add_test plan s co r cl = plan := by
  obtain ⟨e, hl, hre, hce⟩ := h
  rw [add_test_of_some r cl hl]
  refine updatePlan_eq_self _ hl ?_
  simp [hr, hc, insertSet_eq_of_mem hre, insertSet_eq_of_mem hce]

/-! ### Lemmas about the baseline block (a fold of `add_test` over fixed codes) -/

theorem foldl_add_test_wf {std r cl : String} (ts : List String) {plan : PlanMap}
    (hwf : WFPlan plan) :
    WFPlan (ts.foldl (fun pl t => add_test pl std t r cl) plan) := by
  induction ts generalizing plan with
  | nil => exact hwf
  | cons t ts ih => exact ih (wf_add_test std t r cl hwf)

theorem foldl_add_test_persist {std r cl : String} (ts : List String) {plan : PlanMap}
    {k : Key} {r₀ c₀ : String} (h : hasRC plan k r₀ c₀) :
    hasRC (ts.foldl (fun pl t => add_test pl std t r cl) plan) k r₀ c₀ := by
  induction ts generalizing plan with
  | nil => exact h
  | cons t ts ih => exact ih (hasRC_add_test std t r cl h)

theorem foldl_add_test_establish {std r cl : String} (ts : List String) {plan : PlanMap}
    (hwf : WFPlan plan) (hs : std ≠ "NOTES") (hr : r ≠ "") (hc : cl ≠ "") :
    ∀ t ∈ ts, hasRC (ts.foldl (fun pl t => add_test pl std t r cl) plan) (std, t) r cl := by
  induction ts generalizing plan with
  | nil => intro t ht; cases ht
  | cons t₀ ts ih =>
    intro t ht
    rcases List.mem_cons.mp ht with rfl | ht
    · exact foldl_add_test_persist ts (hasRC_create hwf hs hr hc)
    · exact ih (wf_add_test std t₀ r cl hwf) t ht

theorem foldl_add_test_noop {std r cl : String} (ts : List String) {plan : PlanMap}
    (hall : ∀ t ∈ ts, hasRC plan (std, t) r cl) (hr : r ≠ "") (hc : cl ≠ "") :
    ts.foldl (fun pl t => add_test pl std t r cl) plan = plan := by
  induction ts with
  | nil => rfl
  | cons t₀ ts ih =>
    have h0 : add_test plan std t₀ r cl = plan :=
      add_test_noop (hall t₀ (List.mem_cons_self _ _)) hr hc
    simp only [List.foldl_cons, h0]
    exact ih fun t ht => hall t (List.mem_cons_of_mem _ ht)

/-! ### The notes invariant (`add_note` and the sentinel key) -/

/-- Invariant of plans built from empty by rule-function calls: keys are
unique; the sentinel key (if present) carries exactly the notes announced
so far; and every other key carries a test entry whose `standard` equals
the key's first component, which is never `"NOTES"`. -/
def NotesInv (ns : List String) (plan : PlanMap) : Prop :=
  (planKeys plan).Nodup ∧
  (∀ kv ∈ plan, kv.1 = notesKey → kv.2 = PlanValue.notesOnly ns) ∧
  ((∃ kv ∈ plan, kv.1 = notesKey) ∨ ns = []) ∧
  (∀ kv ∈ plan, kv.1 ≠ notesKey →
    ∃ e, kv.2 = PlanValue.entry e ∧ e.standard = kv.1.1 ∧ kv.1.1 ≠ "NOTES")

theorem notesInv_empty : NotesInv [] [] := by
  refine ⟨List.nodup_nil, ?_, Or.inr rfl, ?_⟩ <;> intro kv hkv <;> cases hkv

theorem notesInv_add_test {ns : List String} {plan : PlanMap} {s c r cl : String}
    (h : NotesInv ns plan) (hs : s = "IEC 61215" ∨ s = "IEC 61730") :
    NotesInv ns (add_test plan s c r cl) := by
  obtain ⟨hnd, hnotes, hex, hent⟩ := h
  have hsn : s ≠ "NOTES" := by rcases hs with rfl | rfl <;> decide
  have hkn : ((s, c) : Key) ≠ notesKey := by simp [notesKey, hsn]
  cases hcase : lookupPlan plan (s, c) with
  | none =>
    rw [add_test_of_none r cl hcase]
    refine ⟨?_, ?_, ?_, ?_⟩
    · have := nodup_planKeys_add_test s c r cl hnd
      rwa [add_test_of_none r cl hcase] at this
    · intro kv hkv hk
      rcases List.mem_append.mp hkv with hkv | hkv
      · exact hnotes kv hkv hk
      · simp only [List.mem_singleton] at hkv
        subst hkv
        exact absurd hk hkn
    · rcases hex with ⟨kv, hkv, hk⟩ | hns
      · exact Or.inl ⟨kv, List.mem_append_left _ hkv, hk⟩
      · exact Or.inr hns
    · intro kv hkv hk
      rcases List.mem_append.mp hkv with hkv | hkv
      · exact hent kv hkv hk
      · simp only [List.mem_singleton] at hkv
        subst hkv
        exact ⟨_, rfl, rfl, hsn⟩
  | some v =>
    rw [add_test_of_some r cl hcase]
    refine ⟨?_, ?_, ?_, ?_⟩
    · rw [planKeys_updatePlan]
      exact hnd
    · intro kv hkv hk
      rcases mem_updatePlan hnd hkv with ⟨hkv, _⟩ | ⟨v₀, hv₀, rfl⟩
      · exact hnotes kv hkv hk
      · exact absurd hk hkn
    · rcases hex with ⟨kv, hkv, hk⟩ | hns
      · refine Or.inl ⟨kv, mem_updatePlan_of_ne hkv ?_, hk⟩
        rw [hk]
        exact Ne.symm hkn
      · exact Or.inr hns
    · intro kv hkv hk
      rcases mem_updatePlan hnd hkv with ⟨hkv, _⟩ | ⟨v₀, hv₀, rfl⟩
      · exact hent kv hkv hk
      · obtain ⟨e, he, hstd, hne⟩ := hent ((s, c), v₀) (lookupPlan_some_mem hv₀) hkn
        subst he
        exact ⟨_, rfl, hstd, hne⟩

theorem notesInv_add_note {ns : List String} {plan : PlanMap} (n : String)
    (h : NotesInv ns plan) : NotesInv (ns ++ [n]) (add_note plan n) := by
  obtain ⟨hnd, hnotes, hex, hent⟩ := h
  unfold add_note
  cases hcase : lookupPlan plan notesKey with
  | none =>
    have hns : ns = [] := by
      rcases hex with ⟨kv, hkv, hk⟩ | hns
      · exfalso
        obtain ⟨k, v⟩ := kv
        simp only at hk
        subst hk
        exact (lookupPlan_none_iff plan notesKey).mp hcase (List.mem_map_of_mem Prod.fst hkv)
      · exact hns
    subst hns
    refine ⟨?_, ?_, ?_, ?_⟩
    · have := nodup_planKeys_add_note n hnd
      unfold add_note at this
      rwa [hcase] at this
    · intro kv hkv hk
      rcases List.mem_append.mp hkv with hkv | hkv
      · exfalso
        obtain ⟨k, v⟩ := kv
        simp only at hk
        subst hk
        exact (lookupPlan_none_iff plan notesKey).mp hcase (List.mem_map_of_mem Prod.fst hkv)
      · simp only [List.mem_singleton] at hkv
        subst hkv
        rfl
    · exact Or.inl ⟨(notesKey, .notesOnly [n]), List.mem_append_right _ (List.mem_singleton_self _), rfl⟩
    · intro kv hkv hk
      rcases List.mem_append.mp hkv with hkv | hkv
      · exact hent kv hkv hk
      · simp only [List.mem_singleton] at hkv
        subst hkv
        exact absurd rfl hk
  | some v =>
    have hv : v = PlanValue.notesOnly ns :=
      hnotes (notesKey, v) (lookupPlan_some_mem hcase) rfl
    subst hv
    refine ⟨?_, ?_, ?_, ?_⟩
    · rw [planKeys_updatePlan]
      exact hnd
    · intro kv hkv hk
      rcases mem_updatePlan hnd hkv with ⟨hkv, hne⟩ | ⟨v₀, hv₀, rfl⟩
      · exact absurd hk hne
      · rw [hcase] at hv₀
        injection hv₀ with hv₀
        subst hv₀
        rfl
    · refine Or.inl ⟨(notesKey, .notesOnly (ns ++ [n])), ?_, rfl⟩
      have := mem_updatePlan_self (fun v =>
        match v with
        | .notesOnly m => PlanValue.notesOnly (m ++ [n])
        | .entry e => PlanValue.entry e) hcase
      exact this
    · intro kv hkv hk
      rcases mem_updatePlan hnd hkv with ⟨hkv, _⟩ | ⟨v₀, hv₀, rfl⟩
      · exact hent kv hkv hk
      · exact absurd rfl hk

instance : DecidablePred opValid
  | .test s _ _ _ => inferInstanceAs (Decidable (s = "IEC 61215" ∨ s = "IEC 61730"))
  | .note _ => inferInstanceAs (Decidable True)

theorem notesInv_applyOps {ns : List String} {plan : PlanMap} (ops : List PlanOp)
    (h : NotesInv ns plan) (hv : ∀ op ∈ ops, opValid op) :
    NotesInv (ns ++ opsNotes ops) (applyOps ops plan) := by
  induction ops generalizing ns plan with
  | nil => simpa [applyOps, opsNotes] using h
  | cons op ops ih =>
    cases op with
    | test s c r cl =>
      have hs : s = "IEC 61215" ∨ s = "IEC 61730" := hv _ (List.mem_cons_self _ _)
      have h' := @notesInv_add_test ns plan s c r cl h hs
      have := ih h' fun op hop => hv op (List.mem_cons_of_mem _ hop)
      simpa [applyOps, opsNotes, List.filterMap_cons, applyOp] using this
    | note s =>
      have h' := notesInv_add_note s h
      have := ih h' fun op hop => hv op (List.mem_cons_of_mem _ hop)
      simpa [applyOps, opsNotes, List.filterMap_cons, applyOp, List.append_assoc] using this

theorem nodup_applyOps (ops : List PlanOp) {plan : PlanMap}
    (h : (planKeys plan).Nodup) : (planKeys (applyOps ops plan)).Nodup := by
  induction ops generalizing plan with
  | nil => exact h
  | cons op ops ih =>
    cases op with
    | test s c r cl => exact ih (nodup_planKeys_add_test s c r cl h)
    | note s => exact ih (nodup_planKeys_add_note s h)

/-! ### Characterisation of the collection loop -/

theorem collect_fold_fst (plan : PlanMap) : ∀ acc ns,
    (List.foldl collectStep (acc, ns) plan).1 = acc ++ (nonNoteEntries plan).map mkRow := by
  induction plan with
  | nil => intro acc ns; simp [nonNoteEntries]
  | cons kv rest ih =>
    intro acc ns
    obtain ⟨k, v⟩ := kv
    by_cases hk : k = notesKey
    · subst hk
      cases v with
      | notesOnly m =>
        simp only [List.foldl_cons, collectStep, if_pos rfl]
        rw [ih]
        simp [nonNoteEntries]
      | entry e =>
        simp only [List.foldl_cons, collectStep, if_pos rfl]
        rw [ih]
        simp [nonNoteEntries]
    · cases v with
      | entry e =>
        simp only [List.foldl_cons, collectStep, if_neg hk]
        rw [ih]
        simp [nonNoteEntries, hk, List.append_assoc]
      | notesOnly m =>
        simp only [List.foldl_cons, collectStep, if_neg hk]
        rw [ih]
        simp [nonNoteEntries, hk]

theorem collect_fst (plan : PlanMap) : (collect plan).1 = (nonNoteEntries plan).map mkRow :=
  collect_fold_fst plan [] []

theorem collect_fold_snd_none (plan : PlanMap)
    (hnone : ∀ kv ∈ plan, kv.1 ≠ notesKey) : ∀ acc m,
    (List.foldl collectStep (acc, m) plan).2 = m := by
  induction plan with
  | nil => intro acc m; rfl
  | cons kv rest ih =>
    intro acc m
    obtain ⟨k, v⟩ := kv
    have hk : k ≠ notesKey := hnone (k, v) (List.mem_cons_self _ _)
    have ih' := ih fun kv hkv => hnone kv (List.mem_cons_of_mem _ hkv)
    cases v with
    | entry e =>
      simp only [List.foldl_cons, collectStep, if_neg hk]
      exact ih' _ _
    | notesOnly m' =>
      simp only [List.foldl_cons, collectStep, if_neg hk]
      exact ih' _ _

theorem collect_fold_snd_some {ns : List String} (plan : PlanMap)
    (hall : ∀ kv ∈ plan, kv.1 = notesKey → kv.2 = PlanValue.notesOnly ns)
    (hex : ∃ kv ∈ plan, kv.1 = notesKey) : ∀ acc m,
    (List.foldl collectStep (acc, m) plan).2 = ns := by
  induction plan with
  | nil => obtain ⟨kv, hkv, _⟩ := hex; cases hkv
  | cons kv rest ih =>
    intro acc m
    obtain ⟨k, v⟩ := kv
    have hall' : ∀ kv ∈ rest, kv.1 = notesKey → kv.2 = PlanValue.notesOnly ns :=
      fun kv hkv => hall kv (List.mem_cons_of_mem _ hkv)
    by_cases hk : k = notesKey
    · subst hk
      have hv : v = PlanValue.notesOnly ns := hall (notesKey, v) (List.mem_cons_self _ _) rfl
      subst hv
      simp only [List.foldl_cons, collectStep, if_pos rfl]
      by_cases hex' : ∃ kv ∈ rest, kv.1 = notesKey
      · exact ih hall' hex' _ _
      · refine collect_fold_snd_none rest ?_ _ _
        intro kv hkv hkk
        exact hex' ⟨kv, hkv, hkk⟩
    · have hex' : ∃ kv ∈ rest, kv.1 = notesKey := by
        obtain ⟨kv', hkv', hk'⟩ := hex
        rcases List.mem_cons.mp hkv' with rfl | hkv'
        · exact absurd hk' hk
        · exact ⟨kv', hkv', hk'⟩
      cases v with
      | entry e =>
        simp only [List.foldl_cons, collectStep, if_neg hk]
        exact ih hall' hex' _ _
      | notesOnly m' =>
        simp only [List.foldl_cons, collectStep, if_neg hk]
        exact ih hall' hex' _ _

theorem plan_notes_of_notesInv {ns : List String} {plan : PlanMap}
    (h : NotesInv ns plan) : plan_notes plan = ns := by
  obtain ⟨_, hnotes, hex, _⟩ := h
  unfold plan_notes collect
  by_cases hx : ∃ kv ∈ plan, kv.1 = notesKey
  · exact collect_fold_snd_some plan hnotes hx [] []
  · have hns : ns = [] := by
      rcases hex with hex | hns
      · exact absurd hex hx
      · exact hns
    subst hns
    refine collect_fold_snd_none plan ?_ [] []
    intro kv hkv hkk
    exact hx ⟨kv, hkv, hkk⟩

/-- Generic association-list lookup for the snapshot object. -/
def lookupStr {α : Type} : List (String × α) → String → Option α
  | [], _ => none
  | (k, v) :: rest, s => if k = s then some v else lookupStr rest s

/-! ## Claim theorems -/

/-- Gate input with rated Pmp = 0 (the widget default; `min_value=0.0`
makes 0 the only non-positive reachable value) and measured Pmp = 5. -/
def c1_zero_gate : GateInput := ⟨0, 5, 0, 0⟩

/-- C1: when `rated_Pmp > 0` the percent power delta is
`(measured − rated) / rated × 100` and the Gate step completes, appending
the summary note.  But for `rated_Pmp = 0` the delta is left unset (`none`)
and the unconditional f-string `f"... ΔPmp%={delta:.2f}% ..."` then raises
`TypeError` in Python — the Gate computation does `not` complete and no
note is appended, contradicting the claim's error-freedom part. -/
theorem C1_gate_delta_zero_rated_crash :
    (∀ rated meas : ℚ, 0 < rated →
      gate_delta rated meas = some ((meas - rated) / rated * 100)) ∧
    (∀ (gi : GateInput) (plan : PlanMap), 0 < gi.rated_Pmp_W →
      gate_step gi plan = .ok
        ({ rated_Pmp_W := gi.rated_Pmp_W, measured_Pmp_W := gi.measured_Pmp_W,
           delta_Pmp_pct := some ((gi.measured_Pmp_W - gi.rated_Pmp_W) / gi.rated_Pmp_W * 100),
           measured_Voc_V := gi.measured_Voc_V, measured_Isc_A := gi.measured_Isc_A },
         add_note plan ("Gate-1/2 recorded: ΔPmp%=" ++
           render2 ((gi.measured_Pmp_W - gi.rated_Pmp_W) / gi.rated_Pmp_W * 100) ++
           "% (engineer to assess per IEC 61215-1)."))) ∧
    gate_step c1_zero_gate [] =
      .error "unsupported format string passed to NoneType.__format__" := by
  refine ⟨?_, ?_, rfl⟩
  · intro rated meas h
    unfold gate_delta
    rw [if_pos h]
  · intro gi plan h
    simp [gate_step, gate_delta, format_2f, h]

/-- C1 witness: the positive-rated branch of the theorem at rated 3 W,
measured 6 W. -/
theorem C1_witness : (0 : ℚ) < 3 ∧ gate_delta 3 6 = some ((6 - 3) / 3 * 100) :=
  ⟨by norm_num, C1_gate_delta_zero_rated_crash.1 3 6 (by norm_num)⟩

/-- The five 61215 baseline entries actually produced by `baseline_checks`. -/
def baseline_61215_expected : PlanMap := [
  (("IEC 61215", "MQT 01"), .entry ⟨"IEC 61215", "MQT 01", "Visual inspection",
    ["Baseline initial/final measurements per 4.1"], ["4.1"], []⟩),
  (("IEC 61215", "MQT 03"), .entry ⟨"IEC 61215", "MQT 03", "Insulation test (61215 context)",
    ["Baseline initial/final measurements per 4.1"], ["4.1"], []⟩),
  (("IEC 61215", "MQT 06.1"), .entry ⟨"IEC 61215", "MQT 06.1", "Performance at STC",
    ["Baseline initial/final measurements per 4.1"], ["4.1"], []⟩),
  (("IEC 61215", "MQT 15"), .entry ⟨"IEC 61215", "MQT 15", "Wet leakage current test (61215 context)",
    ["Baseline initial/final measurements per 4.1"], ["4.1"], []⟩),
  (("IEC 61215", "MQT 19"), .entry ⟨"IEC 61215", "MQT 19", "Stabilization",
    ["Baseline initial/final measurements per 4.1"], ["4.1"], []⟩)]

/-- The four 61730 baseline entries actually produced by `baseline_checks`. -/
def baseline_61730_expected : PlanMap := [
  (("IEC 61730", "MST 01"), .entry ⟨"IEC 61730", "MST 01", "Visual inspection (61730 context)",
    ["Baseline checks per 4.1 (61730 program)"], ["4.1"], []⟩),
  (("IEC 61730", "MST 03"), .entry ⟨"IEC 61730", "MST 03", "Insulation test (61730 context)",
    ["Baseline checks per 4.1 (61730 program)"], ["4.1"], []⟩),
  (("IEC 61730", "MST 16"), .entry ⟨"IEC 61730", "MST 16", "Wet leakage current test (61730 context)",
    ["Baseline checks per 4.1 (61730 program)"], ["4.1"], []⟩),
  (("IEC 61730", "MST 17"), .entry ⟨"IEC 61730", "MST 17", "Ground continuity test",
    ["Baseline checks per 4.1 (61730 program)"], ["4.1"], []⟩)]

/-- C2 counterexample: the baseline entry for (IEC 61215, MQT 01) is tagged
with the reason string "Baseline initial/final measurements per 4.1", not
with the literal reason "baseline" the claim states. -/
theorem C2_counterexample :
    lookupPlan (baseline_checks true false []) ("IEC 61215", "MQT 01") =
      some (.entry ⟨"IEC 61215", "MQT 01", "Visual inspection",
        ["Baseline initial/final measurements per 4.1"], ["4.1"], []⟩) ∧
    "baseline" ∉ (["Baseline initial/final measurements per 4.1"] : List String) := by
  decide

/-- C2 (amended): on an empty Plan the baseline step adds exactly the five
61215 tests (when 61215 is included) and exactly the four 61730 tests (when
61730 is included) and nothing else, each tagged with clause "4.1" and with
the single baseline reason string of its standard
("Baseline initial/final measurements per 4.1" resp.
"Baseline checks per 4.1 (61730 program)"). -/
theorem C2_baseline_sets : ∀ i15 i30 : Bool,
    baseline_checks i15 i30 [] =
      (if i15 then baseline_61215_expected else []) ++
      (if i30 then baseline_61730_expected else []) := by
  decide

/-- C3: plans built by any sequence of accumulator calls have unique
(standard, code) keys, and `add_test` on an existing key adds no row: the
key set is unchanged, the entry keeps its Standard / Test ID / Test name
and only accumulates the supplied reason and clause into its sets, and
every other key is untouched. -/
theorem C3_plan_unique_per_key :
    (∀ ops : List PlanOp, (planKeys (applyOps ops [])).Nodup) ∧
    (∀ (plan : PlanMap) (s c r cl : String) (e : TestEntry),
      lookupPlan plan (s, c) = some (.entry e) →
      planKeys (add_test plan s c r cl) = planKeys plan ∧
      lookupPlan (add_test plan s c r cl) (s, c) = some (.entry { e with
        reasons := if r = "" then e.reasons else insertSet e.reasons r
        clauses := if cl = "" then e.clauses else insertSet e.clauses cl }) ∧
      (∀ k' : Key, k' ≠ (s, c) →
        lookupPlan (add_test plan s c r cl) k' = lookupPlan plan k')) := by
  constructor
  · intro ops
    exact nodup_applyOps ops (by simp [planKeys])
  · intro plan s c r cl e hl
    refine ⟨?_, ?_, ?_⟩
    · rw [add_test_of_some r cl hl, planKeys_updatePlan]
    · rw [add_test_of_some r cl hl]
      exact lookupPlan_updatePlan_self _ hl
    · intro k' hk'
      rw [add_test_of_some r cl hl]
      exact lookupPlan_updatePlan_other _ hk'

/-- A one-entry plan used to witness the C3 accumulation behaviour. -/
def c3_plan1 : PlanMap := add_test [] "IEC 61215" "MQT 01" "reason A" "4.1"

/-- The entry that `c3_plan1` stores. -/
def c3_entry1 : TestEntry :=
  ⟨"IEC 61215", "MQT 01", "Visual inspection", ["reason A"], ["4.1"], []⟩

/-- C3 witness: a repeated `add_test` on the same key leaves the key set
unchanged. -/
theorem C3_witness :
    lookupPlan c3_plan1 ("IEC 61215", "MQT 01") = some (.entry c3_entry1) ∧
    planKeys (add_test c3_plan1 "IEC 61215" "MQT 01" "reason B" "4.1") = planKeys c3_plan1 :=
  ⟨by decide,
   (C3_plan_unique_per_key.2 c3_plan1 "IEC 61215" "MQT 01" "reason B" "4.1" c3_entry1
     (by decide)).1⟩

/-- C4: the baseline step is idempotent on any well-formed plan — running it
twice equals running it once — and on the empty plan the combined / 61215 /
61730 runs produce nine / five / four entries (not doubled). -/
theorem C4_baseline_idempotent :
    (∀ (i15 i30 : Bool) (plan : PlanMap), WFPlan plan →
      baseline_checks i15 i30 (baseline_checks i15 i30 plan) =
        baseline_checks i15 i30 plan) ∧
    (baseline_checks true true []).length = 9 ∧
    (baseline_checks true false []).length = 5 ∧
    (baseline_checks false true []).length = 4 := by
  refine ⟨?_, rfl, rfl, rfl⟩
  intro i15 i30 plan hwf
  cases i15 <;> cases i30
  · rfl
  · -- 61730 only
    have e : ∀ p : PlanMap, baseline_checks false true p =
        ["MST 01", "MST 03", "MST 16", "MST 17"].foldl
          (fun pl t => add_test pl "IEC 61730" t "Baseline checks per 4.1 (61730 program)" "4.1") p :=
      fun p => rfl
    rw [e, e]
    have h30 : ∀ t ∈ ["MST 01", "MST 03", "MST 16", "MST 17"],
        hasRC (["MST 01", "MST 03", "MST 16", "MST 17"].foldl
          (fun pl t => add_test pl "IEC 61730" t "Baseline checks per 4.1 (61730 program)" "4.1") plan)
          ("IEC 61730", t) "Baseline checks per 4.1 (61730 program)" "4.1" :=
      foldl_add_test_establish _ hwf (by decide) (by decide) (by decide)
    exact foldl_add_test_noop _ h30 (by decide) (by decide)
  · -- 61215 only
    have e : ∀ p : PlanMap, baseline_checks true false p =
        ["MQT 01", "MQT 03", "MQT 06.1", "MQT 15", "MQT 19"].foldl
          (fun pl t => add_test pl "IEC 61215" t "Baseline initial/final measurements per 4.1" "4.1") p :=
      fun p => rfl
    rw [e, e]
    have h15 : ∀ t ∈ ["MQT 01", "MQT 03", "MQT 06.1", "MQT 15", "MQT 19"],
        hasRC (["MQT 01", "MQT 03", "MQT 06.1", "MQT 15", "MQT 19"].foldl
          (fun pl t => add_test pl "IEC 61215" t "Baseline initial/final measurements per 4.1" "4.1") plan)
          ("IEC 61215", t) "Baseline initial/final measurements per 4.1" "4.1" :=
      foldl_add_test_establish _ hwf (by decide) (by decide) (by decide)
    exact foldl_add_test_noop _ h15 (by decide) (by decide)
  · -- combined
    have e : ∀ p : PlanMap, baseline_checks true true p =
        ["MST 01", "MST 03", "MST 16", "MST 17"].foldl
          (fun pl t => add_test pl "IEC 61730" t "Baseline checks per 4.1 (61730 program)" "4.1")
          (["MQT 01", "MQT 03", "MQT 06.1", "MQT 15", "MQT 19"].foldl
            (fun pl t => add_test pl "IEC 61215" t "Baseline initial/final measurements per 4.1" "4.1") p) :=
      fun p => rfl
    rw [e, e]
    have hwfA : WFPlan (["MQT 01", "MQT 03", "MQT 06.1", "MQT 15", "MQT 19"].foldl
        (fun pl t => add_test pl "IEC 61215" t "Baseline initial/final measurements per 4.1" "4.1") plan) :=
      foldl_add_test_wf _ hwf
    have h15A : ∀ t ∈ ["MQT 01", "MQT 03", "MQT 06.1", "MQT 15", "MQT 19"],
        hasRC (["MQT 01", "MQT 03", "MQT 06.1", "MQT 15", "MQT 19"].foldl
          (fun pl t => add_test pl "IEC 61215" t "Baseline initial/final measurements per 4.1" "4.1") plan)
          ("IEC 61215", t) "Baseline initial/final measurements per 4.1" "4.1" :=
      foldl_add_test_establish _ hwf (by decide) (by decide) (by decide)
    have h15B : ∀ t ∈ ["MQT 01", "MQT 03", "MQT 06.1", "MQT 15", "MQT 19"],
        hasRC (["MST 01", "MST 03", "MST 16", "MST 17"].foldl
          (fun pl t => add_test pl "IEC 61730" t "Baseline checks per 4.1 (61730 program)" "4.1")
          (["MQT 01", "MQT 03", "MQT 06.1", "MQT 15", "MQT 19"].foldl
            (fun pl t => add_test pl "IEC 61215" t "Baseline initial/final measurements per 4.1" "4.1") plan))
          ("IEC 61215", t) "Baseline initial/final measurements per 4.1" "4.1" :=
      fun t ht => foldl_add_test_persist _ (h15A t ht)
    have h30B : ∀ t ∈ ["MST 01", "MST 03", "MST 16", "MST 17"],
        hasRC (["MST 01", "MST 03", "MST 16", "MST 17"].foldl
          (fun pl t => add_test pl "IEC 61730" t "Baseline checks per 4.1 (61730 program)" "4.1")
          (["MQT 01", "MQT 03", "MQT 06.1", "MQT 15", "MQT 19"].foldl
            (fun pl t => add_test pl "IEC 61215" t "Baseline initial/final measurements per 4.1" "4.1") plan))
          ("IEC 61730", t) "Baseline checks per 4.1 (61730 program)" "4.1" :=
      foldl_add_test_establish _ hwfA (by decide) (by decide) (by decide)
    rw [foldl_add_test_noop _ h15B (by decide) (by decide)]
    exact foldl_add_test_noop _ h30B (by decide) (by decide)

/-- C4 witness: the idempotence theorem at the empty (well-formed) plan with
both standards included. -/
theorem C4_witness : WFPlan ([] : PlanMap) ∧
    baseline_checks true true (baseline_checks true true []) = baseline_checks true true [] :=
  ⟨by decide, C4_baseline_idempotent.1 true true [] (by decide)⟩

/-- The C5 frontsheet scenario: glass, no strengthening change, thickness
change 0, UV cutoff "≥ previous", surface treatment changed on the outside
surface only, everything else false. -/
def c5_params : FrontsheetParams :=
  { material_type := "glass"
    thickness_change_pct := 0
    surface_treatment_changed := true
    outside_surface_only := true
    ar_lambda_c_uv_change := ">= previous"
    strengthening_change := false
    jb_on_frontsheet := false
    flexible_module := false
    cemented_joint := false
    model_designation_change := false
    glass_to_poly_or_vice_versa := false }

/-- The 61215-only plan for the C5 scenario: baseline plus the frontsheet
rule. -/
def c5_plan : PlanMap :=
  (rules_frontsheet c5_params "WBT (wafer-based)" true false [] (baseline_checks true false [])).2

/-- C5: in the glass / UV-cutoff-≥-previous / outside-surface-only frontsheet
scenario the 61215 plan omits MQT 09, 10, 20, 11-50, 12, 16 and 17 while
still containing the full five-test baseline set. -/
theorem C5_frontsheet_carveouts :
    (∀ t ∈ ["MQT 09", "MQT 10", "MQT 20", "MQT 11-50", "MQT 12", "MQT 16", "MQT 17"],
      lookupPlan c5_plan ("IEC 61215", t) = none) ∧
    (∀ t ∈ ["MQT 01", "MQT 03", "MQT 06.1", "MQT 15", "MQT 19"],
      lookupPlan c5_plan ("IEC 61215", t) ≠ none) := by
  decide

/-- The C6 state: the system-voltage rule with increase >5% and non-glass
outer surface under a combined program (both standards included). -/
def c6_state : SeqSet × PlanMap :=
  rules_system_voltage_increase { increased_by_gt5 := true, non_glass_outer := true }
    true true [] []

/-- C6: the system-voltage rule (increase >5%, non-glass outer, combined
program) puts MST 22, 54, 51-50, 52, 51-200, 53, 04, 11, 12, 13 and 14 into
the 61730 plan, flags (SEQ_B, "4.2.14/4.3.17"), and appends the
creepage/clearance re-evaluation note. -/
theorem C6_system_voltage_outputs :
    (∀ t ∈ ["MST 22", "MST 54", "MST 51-50", "MST 52", "MST 51-200", "MST 53",
            "MST 04", "MST 11", "MST 12", "MST 13", "MST 14"],
      lookupPlan c6_state.2 ("IEC 61730", t) ≠ none) ∧
    ("SEQ_B", "4.2.14/4.3.17") ∈ c6_state.1 ∧
    "Re-evaluate creepage/clearance per IEC 61730-1 (inspection/testing)." ∈
      plan_notes c6_state.2 := by
  decide

/-- C7: for every well-formed plan the flattened results table is a
permutation of one `mkRow` per non-note plan entry (Standard, Test ID,
resolved name, semicolon-joined sorted clauses and reasons) and is sorted
by the key (Standard, Test ID). -/
theorem C7_results_table_shape : ∀ plan : PlanMap, WFPlan plan →
    (plan_rows plan).Perm ((nonNoteEntries plan).map mkRow) ∧
    List.Pairwise (fun a b => rowLeB a b = true) (plan_rows plan) := by
  intro plan hwf
  constructor
  · unfold plan_rows
    rw [collect_fst]
    exact isort_perm rowLeB _
  · exact isort_pairwise rowLeB
      (fun a b c hab hbc => pairLeB_trans _ _ _ hab hbc)
      (fun a b => pairLeB_total _ _) _

/-- C7 witness: the table-shape theorem at the combined baseline plan. -/
theorem C7_witness : WFPlan (baseline_checks true true []) ∧
    ((plan_rows (baseline_checks true true [])).Perm
      ((nonNoteEntries (baseline_checks true true [])).map mkRow) ∧
     List.Pairwise (fun a b => rowLeB a b = true)
       (plan_rows (baseline_checks true true []))) :=
  ⟨by decide, C7_results_table_shape (baseline_checks true true []) (by decide)⟩

/-- C8: the snapshot object has exactly the nine top-level keys in order,
its `sequences` field is the sorted list of the sequence-flag pairs (a sorted
permutation of the flag set), its `plan` field is the aggregated row list,
and its `notes` field is the notes list. -/
theorem C8_snapshot_shape : ∀ (gen tech prog : String) (seq : SeqSet)
    (gr : Option GateResults) (mods : List String) (inputs : Inputs)
    (tests : List Row) (notes : List String),
    (snapshot gen tech prog seq gr mods inputs tests notes).map Prod.fst =
      ["generated_on", "technology", "program", "sequences", "gate",
       "mods", "inputs", "plan", "notes"] ∧
    lookupStr (snapshot gen tech prog seq gr mods inputs tests notes) "sequences" =
      some (.pairList (isort pairLeB seq)) ∧
    (isort pairLeB seq).Perm seq ∧
    List.Pairwise (fun a b => pairLeB a b = true) (isort pairLeB seq) ∧
    lookupStr (snapshot gen tech prog seq gr mods inputs tests notes) "plan" =
      some (.rowList tests) ∧
    lookupStr (snapshot gen tech prog seq gr mods inputs tests notes) "notes" =
      some (.strList notes) := by
  intro gen tech prog seq gr mods inputs tests notes
  refine ⟨rfl, rfl, isort_perm _ _,
    isort_pairwise pairLeB (fun a b c hab hbc => pairLeB_trans a b c hab hbc)
      (fun a b => pairLeB_total a b) seq, rfl, rfl⟩

/-- C9: the "Generate Retest Plan" computation depends only on its declared
inputs — any plan / sequence-flag state carried over from a previous
invocation is discarded (`plan = {}`, `seq_flags = set()`), so two runs with
identical technology, program, modifications, parameters and gate input
produce identical result tables, notes lists and sequence-flag sets. -/
theorem C9_generate_deterministic : ∀ (s₁ s₂ : PlanMap × SeqSet) (inp : Inputs),
    generate_retest_plan s₁ inp = generate_retest_plan s₂ inp :=
  fun _ _ _ => rfl

/-- C10: for every valid call sequence, notes live only under the sentinel
key: no row of the flattened table has Standard "NOTES", and the extracted
notes list is exactly the added notes in insertion order. -/
theorem C10_notes_separated : ∀ ops : List PlanOp, (∀ op ∈ ops, opValid op) →
    (∀ row ∈ plan_rows (applyOps ops []), row.standard ≠ "NOTES") ∧
    plan_notes (applyOps ops []) = opsNotes ops := by
  intro ops hv
  have hinv : NotesInv ([] ++ opsNotes ops) (applyOps ops []) :=
    notesInv_applyOps ops notesInv_empty hv
  rw [List.nil_append] at hinv
  constructor
  · intro row hrow
    unfold plan_rows at hrow
    have hmem : row ∈ (collect (applyOps ops [])).1 :=
      ((isort_perm rowLeB _).mem_iff).mp hrow
    rw [collect_fst] at hmem
    obtain ⟨e, he, rfl⟩ := List.mem_map.mp hmem
    obtain ⟨kv, hkv, hfe⟩ := List.mem_filterMap.mp he
    by_cases hk : kv.1 = notesKey
    · rw [if_pos hk] at hfe
      cases hfe
    · rw [if_neg hk] at hfe
      obtain ⟨e', he', hstd, hne⟩ := hinv.2.2.2 kv hkv hk
      rw [he'] at hfe
      simp only at hfe
      injection hfe with hfe
      subst hfe
      simpa [mkRow, hstd] using hne
  · exact plan_notes_of_notesInv hinv

/-- A mixed call sequence used to witness C10. -/
def c10_ops : List PlanOp :=
  [.note "note one", .test "IEC 61215" "MQT 01" "r" "4.1", .note "note two"]

/-- C10 witness: the separation theorem at a concrete mixed sequence. -/
theorem C10_witness : (∀ op ∈ c10_ops, opValid op) ∧
    ((∀ row ∈ plan_rows (applyOps c10_ops []), row.standard ≠ "NOTES") ∧
     plan_notes (applyOps c10_ops []) = opsNotes c10_ops) :=
  ⟨by decide, C10_notes_separated c10_ops (by decide)⟩

end IEC62915
